import Mathlib

set_option maxRecDepth 4000

/-!
# Verification of the xtream-loader cache/refresh layer

A shallow embedding of the cache/refresh layer of the xtream-loader
repository (`api_client.py`, `database.py`, `utils.py`) together with
theorems settling the specification claims about it.

Conventions of the embedding:
* Timestamps (`datetime.utcnow()` values, `last_refresh` columns) are
  naturals counting seconds; `timedelta(hours=24)` is `hours24` seconds.
  `datetime` subtraction followed by `> timedelta(hours=24)` agrees with
  truncated `Nat` subtraction here: a negative Python difference and a
  truncated-to-zero `Nat` difference both fail the `> 24h` test.
* The SQLAlchemy session is a `DBState` value threaded explicitly.  A query
  with a filter is a `List.filter`, `.delete()` on a filtered query removes
  exactly the matching rows, `.first()` is a `find?`.  Mutations made
  before `db.commit()` form one transaction: the failure-aware model
  (`refreshTxnLiveCategories`) commits the tentative state on success and
  yields the original state when the unit aborts, which is what
  `get_db`'s `rollback()` handler plus closing an uncommitted session do.
* The upstream HTTP call (`requests.get`/`.json()`) is an explicit
  `Except Unit payload` argument: `.error` is a raised
  `RequestException`/`HTTPError`, which in the source occurs before any
  store mutation of the refresh unit.
* Python dict payloads are structures; a field read with `d["k"]` on a
  possibly-absent key is an `Option` lookup that raises (`Except.error`,
  modelling `KeyError`) when absent, and `d.get("k", default)` is `getD`.
* Display-only shaped fields whose values depend on ambient I/O or the
  wall clock (`cached_icon`/`cached_cover` download paths, `added_date`
  formatting of `datetime.now()`) are omitted from the shaped structures;
  no claim mentions them.
-/

namespace XtreamLoader

/-- 24 hours in seconds, the refresh window `timedelta(hours=24)`. -/
def hours24 : Nat := 24 * 60 * 60

/-- `ConnectionInfo` from `api_client.py`: base URL and credentials. -/
structure ConnectionInfo where
  base_url : String
  username : String
  password : String
deriving Repr, DecidableEq

/-! ## Decimal rendering of ids

The source repeatedly stores and filters on `str(category_id)` (Python's
decimal rendering of an `int`).  We model it by Lean's `Nat.repr`, which
produces the same decimal string, and prove it injective so that distinct
category ids give distinct stored key strings. -/

/-- Python's `str(n)` for a natural number: decimal digits. -/
def natToStr (n : Nat) : String := Nat.repr n

/-- Most-significant-first decimal digit characters of `n` (with
`digitsMSF 0 = ['0']`), the reference rendering used to reason about
`Nat.toDigitsCore`. -/
def digitsMSF (n : Nat) : List Char :=
  if _h : n < 10 then [Nat.digitChar n]
  else digitsMSF (n / 10) ++ [Nat.digitChar (n % 10)]
  decreasing_by exact Nat.div_lt_self (by omega) (by omega)

theorem digitsMSF_ne_nil (n : Nat) : digitsMSF n ≠ [] := by
  rw [digitsMSF]
  split
  · simp
  · simp

theorem toDigitsCore_eq_digitsMSF (fuel : Nat) :
    ∀ (n : Nat) (acc : List Char), n < fuel →
      Nat.toDigitsCore 10 fuel n acc = digitsMSF n ++ acc := by
  induction fuel with
  | zero => intro n acc h; omega
  | succ f ih =>
    intro n acc h
    show (if n / 10 = 0 then Nat.digitChar (n % 10) :: acc
          else Nat.toDigitsCore 10 f (n / 10) (Nat.digitChar (n % 10) :: acc)) =
        digitsMSF n ++ acc
    by_cases h10 : n < 10
    · have hdiv : n / 10 = 0 := Nat.div_eq_of_lt h10
      have hmod : n % 10 = n := Nat.mod_eq_of_lt h10
      rw [if_pos hdiv, digitsMSF, dif_pos h10, hmod]
      rfl
    · have hdivpos : 0 < n / 10 := Nat.div_pos (by omega) (by omega)
      have hlt : n / 10 < n := Nat.div_lt_self (by omega) (by omega)
      rw [if_neg (by omega : ¬ n / 10 = 0), ih (n / 10) _ (by omega)]
      conv_rhs => rw [digitsMSF]
      rw [dif_neg h10, List.append_assoc]
      rfl

/-- Numeric value of a most-significant-first digit-character list. -/
def valOfDigits (cs : List Char) : Nat :=
  cs.foldl (fun a c => a * 10 + (c.toNat - 48)) 0

theorem valOfDigits_append_aux (cs : List Char) :
    ∀ a : Nat, cs.foldl (fun a c => a * 10 + (c.toNat - 48)) a =
      a * 10 ^ cs.length + cs.foldl (fun a c => a * 10 + (c.toNat - 48)) 0 := by
  induction cs with
  | nil => intro a; simp
  | cons c tl ih =>
    intro a
    simp only [List.foldl_cons, List.length_cons]
    rw [ih (a * 10 + (c.toNat - 48)), ih (0 * 10 + (c.toNat - 48))]
    ring

theorem digitChar_toNat (d : Nat) (h : d < 10) :
    (Nat.digitChar d).toNat = 48 + d := by
  interval_cases d <;> rfl

theorem valOfDigits_digitsMSF (n : Nat) : valOfDigits (digitsMSF n) = n := by
  induction n using Nat.strong_induction_on with
  | _ n ih =>
    rw [digitsMSF]
    by_cases h : n < 10
    · rw [dif_pos h]
      simp [valOfDigits, digitChar_toNat n h]
    · rw [dif_neg h]
      have hlt : n / 10 < n := Nat.div_lt_self (by omega) (by omega)
      have hih := ih (n / 10) hlt
      simp only [valOfDigits, List.foldl_append, List.foldl_cons, List.foldl_nil]
      simp only [valOfDigits] at hih
      rw [hih, digitChar_toNat (n % 10) (Nat.mod_lt _ (by omega))]
      omega

theorem natToStr_injective : Function.Injective natToStr := by
  intro m n h
  have hm : m < m + 1 := Nat.lt_succ_self m
  have hn : n < n + 1 := Nat.lt_succ_self n
  have hdig : digitsMSF m = digitsMSF n := by
    have h' : Nat.toDigits 10 m = Nat.toDigits 10 n := congrArg String.data h
    rw [Nat.toDigits, Nat.toDigits, toDigitsCore_eq_digitsMSF _ _ _ hm,
      toDigitsCore_eq_digitsMSF _ _ _ hn, List.append_nil, List.append_nil] at h'
    exact h'
  have := congrArg valOfDigits hdig
  rwa [valOfDigits_digitsMSF, valOfDigits_digitsMSF] at this

/-! ## Freshness decisions

Each `_get_*_from_db` method guards its upstream fetch with the same test,
translated literally from e.g. `api_client.py` lines 266–270 / 341–345:

```
if (force_refresh
    or not refresh_data
    or datetime.utcnow() - refresh_data.last_refresh > timedelta(hours=24)):
```
-/

/-- The staleness decision (`isStale` in the spec): `force_refresh`, or no
`RefreshData` record, or more than 24 hours elapsed since
`record.last_refresh`. -/
def isStale (forceRefresh : Bool) (record : Option Nat) (now : Nat) : Bool :=
  forceRefresh ||
    match record with
    | none => true
    | some lastRefresh => decide (now - lastRefresh > hours24)

/-- The gate of `_get_epg_info_from_db` (`api_client.py` lines 1206–1209).
Unlike every other resource, the EPG operation has no `force_refresh`
parameter; its gate is only record-absence or age. -/
def epgIsStale (record : Option Nat) (now : Nat) : Bool :=
  match record with
  | none => true
  | some lastRefresh => decide (now - lastRefresh > hours24)

/-! ## Stored rows (tables of `database.py`)

Each structure mirrors one ORM model.  The SQLite autoincrement surrogate
`id` column is carried only where a claim mentions it (`SeriesEpisode`,
whose `id` feeds the episode playback URL); elsewhere it is omitted.
Python `Float` columns are modelled by `Rat`, `JSON` list columns by
`List String`, and `JSON` object columns by association lists. -/

/-- `LiveCategory` / `SeriesCategory` / `FilmCategory` row shape. -/
structure LiveCategoryRow where
  category_id : String
  category_name : String
  parent_id : Nat
deriving Repr, DecidableEq

/-- `LiveChannel` row. -/
structure LiveChannelRow where
  num : Nat
  name : String
  stream_type : String
  stream_id : Nat
  stream_icon : String
  epg_channel_id : String
  added : String
  category_id : String
  custom_sid : String
  tv_archive : Nat
  direct_source : String
  tv_archive_duration : Nat
deriving Repr, DecidableEq

/-- `FilmStream` row. -/
structure FilmStreamRow where
  num : Nat
  name : String
  stream_type : String
  stream_id : Nat
  stream_icon : String
  rating : String
  rating_5based : Rat
  added : String
  category_id : String
  container_extension : String
  custom_sid : String
  direct_source : String
deriving Repr, DecidableEq

/-- `Series` row. -/
structure SeriesRow where
  series_id : Nat
  name : String
  cover : String
  plot : String
  cast : String
  director : String
  genre : String
  release_date : String
  last_modified : String
  rating : String
  rating_5based : Rat
  backdrop_path : List String
  youtube_trailer : String
  episode_run_time : String
  category_id : String
deriving Repr, DecidableEq

/-- `SeriesEpisode` row; `id` is the stored row's primary key, which the
shaping step turns into the shaped episode's `id` and playback URL. -/
structure SeriesEpisodeRow where
  id : Nat
  series_id : Nat
  season : Nat
  episode : Nat
  title : String
  container_extension : String
  plot : String
  duration : String
  rating : Rat
  info : List (String × String)
deriving Repr, DecidableEq

/-- `FilmDetail` row. -/
structure FilmDetailRow where
  stream_id : Nat
  name : String
  o_name : String
  stream_icon : String
  cover_big : String
  movie_image : String
  plot : String
  cast : String
  director : String
  genre : String
  release_date : String
  rating : String
  rating_5based : Rat
  duration_secs : Nat
  duration : String
  youtube_trailer : String
  container_extension : String
  tmdb_id : String
  kinopoisk_url : String
  episode_run_time : String
  actors : String
  description : String
  age : String
  mpaa_rating : String
  rating_count_kinopoisk : Nat
  country : String
  backdrop_path : List String
  bitrate : Nat
  video : List (String × String)
  audio : List (String × String)
deriving Repr, DecidableEq

/-- `EpgListing` row.  `start`/`end` are kept as their wire strings: the
source parses them with `strptime("%Y-%m-%d %H:%M:%S")` at store time and
prints them back with the same `strftime` format at shape time, an
identity on the well-formed strings these columns hold.  The surrogate
`id` column is omitted. -/
structure EpgListingRow where
  epg_id : String
  title : String
  lang : String
  start : String
  stop : String
  description : String
  channel_id : String
  start_timestamp : Nat
  stop_timestamp : Nat
  now_playing : Bool
  has_archive : Bool
  stream_id : Nat
deriving Repr, DecidableEq

/-- `UserInfo` row (account profile snapshot, user and server fields). -/
structure UserInfoRow where
  username : String
  password : String
  message : String
  auth : Nat
  status : String
  exp_date : String
  is_trial : String
  active_cons : String
  created_at : String
  max_connections : String
  allowed_output_formats : List String
  server_url : String
  server_port : String
  server_https_port : String
  server_protocol : String
  server_rtmp_port : String
  server_timezone : String
  server_timestamp_now : Nat
  server_time_now : String
deriving Repr, DecidableEq

/-- The local SQLite database: the `refresh_data` freshness table
(`data_type` key to `last_refresh` timestamp, keys unique) and the
resource tables used by the claims.  Category tables for series/films
behave exactly like `live_categories` and are not duplicated. -/
structure DBState where
  refresh_data : List (String × Nat)
  user_info : Option UserInfoRow
  live_categories : List LiveCategoryRow
  live_channels : List LiveChannelRow
  series : List SeriesRow
  film_streams : List FilmStreamRow
  film_details : List FilmDetailRow
  epg_listings : List EpgListingRow
deriving Repr, DecidableEq

/-- The empty database (fresh install, no rows anywhere). -/
def DBState.empty : DBState :=
  ⟨[], none, [], [], [], [], [], []⟩

/-- `db.query(RefreshData).filter(RefreshData.data_type == key).first()`,
projected to its `last_refresh` column. -/
def findRefresh (s : DBState) (key : String) : Option Nat :=
  (s.refresh_data.find? (fun p => p.1 == key)).map (fun p => p.2)

/-- The freshness-record update of every refresh unit: create the record
for `key` when absent, then set `last_refresh` to `now`
(`refresh_data.last_refresh = datetime.utcnow(); db.add(refresh_data)`). -/
def touch (s : DBState) (key : String) (now : Nat) : DBState :=
  if (s.refresh_data.find? (fun p => p.1 == key)).isSome then
    { s with refresh_data :=
        s.refresh_data.map (fun p => if p.1 == key then (p.1, now) else p) }
  else
    { s with refresh_data := s.refresh_data ++ [(key, now)] }

theorem find_map_touch (l : List (String × Nat)) (k : String) (now : Nat) :
    (l.map (fun p => if p.1 == k then (p.1, now) else p)).find?
        (fun p => p.1 == k) =
      (l.find? (fun p => p.1 == k)).map (fun p => (p.1, now)) := by
  induction l with
  | nil => rfl
  | cons p tl ih =>
    by_cases hp : p.1 = k
    · simp [List.find?, hp, ih]
    · simp only [List.map_cons]
      rw [if_neg (by simpa using hp)]
      rw [List.find?_cons_of_neg _ (by simpa using hp),
        List.find?_cons_of_neg _ (by simpa using hp)]
      exact ih

/-- Read-your-write for the freshness tracker: immediately after `touch`,
the record for the touched key holds the new timestamp. -/
theorem findRefresh_touch_self (s : DBState) (k : String) (now : Nat) :
    findRefresh (touch s k now) k = some now := by
  unfold findRefresh touch
  by_cases h : (s.refresh_data.find? (fun p => p.1 == k)).isSome
  · rw [if_pos h]
    simp only
    rw [find_map_touch]
    obtain ⟨p, hp⟩ := Option.isSome_iff_exists.mp h
    simp [hp]
  · rw [if_neg h]
    simp only
    rw [List.find?_append]
    rw [Option.not_isSome_iff_eq_none] at h
    simp [h, List.find?]

/-- `touch` changes only the `refresh_data` table. -/
theorem touch_rows (s : DBState) (k : String) (now : Nat) :
    (touch s k now).user_info = s.user_info ∧
    (touch s k now).live_categories = s.live_categories ∧
    (touch s k now).live_channels = s.live_channels ∧
    (touch s k now).series = s.series ∧
    (touch s k now).film_streams = s.film_streams ∧
    (touch s k now).film_details = s.film_details ∧
    (touch s k now).epg_listings = s.epg_listings := by
  unfold touch
  by_cases h : (s.refresh_data.find? (fun p => p.1 == k)).isSome <;>
    simp [h]

/-! ## Upstream payloads and row mappers

A payload field the source reads with `item["k"]` (raising `KeyError`
when absent) is a plain field when no claim concerns its absence, and an
`Option` field in the series mappers, whose defaulting behaviour claim
C9 is about; there the sequence of raising lookups is collapsed into one
match (`ok` exactly when all directly-indexed fields are present,
`error`, i.e. `KeyError`, otherwise).  A field read with
`item.get("k", default)` is an `Option` field read with `getD`. -/

/-- Upstream live/series/film category object (all fields are read with
direct indexing in the source). -/
structure LiveCategoryItem where
  category_id : String
  category_name : String
  parent_id : Nat
deriving Repr, DecidableEq

/-- `_get_live_categories_from_db`'s per-item mapping: all three fields
copied verbatim. -/
def mapLiveCategory (c : LiveCategoryItem) : LiveCategoryRow :=
  ⟨c.category_id, c.category_name, c.parent_id⟩

/-- Upstream live-stream object (`get_live_streams`). -/
structure LiveChannelItem where
  num : Nat
  name : String
  stream_type : String
  stream_id : Nat
  stream_icon : String
  epg_channel_id : Option String
  added : String
  custom_sid : Option String
  tv_archive : Option Nat
  direct_source : Option String
  tv_archive_duration : Option Nat
deriving Repr, DecidableEq

/-- `_get_live_channels_from_db`'s per-item mapping (`api_client.py`
359–372): `.get` defaults for `epg_channel_id`/`custom_sid`/`tv_archive`/
`direct_source`/`tv_archive_duration`, `category_id` stamped from the
request's category id. -/
def mapLiveChannel (categoryId : Nat) (c : LiveChannelItem) : LiveChannelRow :=
  { num := c.num
    name := c.name
    stream_type := c.stream_type
    stream_id := c.stream_id
    stream_icon := c.stream_icon
    epg_channel_id := c.epg_channel_id.getD ""
    added := c.added
    category_id := natToStr categoryId
    custom_sid := c.custom_sid.getD ""
    tv_archive := c.tv_archive.getD 0
    direct_source := c.direct_source.getD ""
    tv_archive_duration := c.tv_archive_duration.getD 0 }

/-- Upstream VOD-stream object (`get_vod_streams`). -/
structure FilmStreamItem where
  num : Nat
  name : String
  stream_type : String
  stream_id : Nat
  stream_icon : String
  rating : String
  rating_5based : Rat
  added : String
  container_extension : String
  custom_sid : Option String
  direct_source : Option String
deriving Repr, DecidableEq

/-- `_get_film_streams_from_db`'s per-item mapping (`api_client.py`
992–1005): `.get` defaults only for `custom_sid` and `direct_source`. -/
def mapFilmStream (categoryId : Nat) (c : FilmStreamItem) : FilmStreamRow :=
  { num := c.num
    name := c.name
    stream_type := c.stream_type
    stream_id := c.stream_id
    stream_icon := c.stream_icon
    rating := c.rating
    rating_5based := c.rating_5based
    added := c.added
    category_id := natToStr categoryId
    container_extension := c.container_extension
    custom_sid := c.custom_sid.getD ""
    direct_source := c.direct_source.getD "" }

/-- Upstream series object (`get_series`), shared by the per-category and
the all-series refresh paths.  Every field is `Option` so that the two
paths' different treatment of absent fields is expressible. -/
structure SeriesItem where
  series_id : Option Nat
  name : Option String
  cover : Option String
  plot : Option String
  cast : Option String
  director : Option String
  genre : Option String
  releaseDate : Option String
  last_modified : Option String
  rating : Option String
  rating_5based : Option Rat
  backdrop_path : Option (List String)
  youtube_trailer : Option String
  episode_run_time : Option String
  category_id : Option String
deriving Repr, DecidableEq

/-- `_get_series_from_db`'s per-item mapping (`api_client.py` 555–573):
every field is read with direct indexing (`series["plot"]`, …), so any
absent field raises `KeyError`; `category_id` is stamped from the
request. -/
def mapSeriesPerCategory (categoryId : Nat) (it : SeriesItem) :
    Except Unit SeriesRow :=
  match it.series_id, it.name, it.cover, it.plot, it.cast, it.director,
      it.genre, it.releaseDate, it.last_modified, it.rating,
      it.rating_5based, it.backdrop_path, it.youtube_trailer,
      it.episode_run_time with
  | some series_id, some name, some cover, some plot, some cast,
      some director, some genre, some release_date, some last_modified,
      some rating, some rating_5based, some backdrop_path,
      some youtube_trailer, some episode_run_time =>
    .ok { series_id, name, cover, plot, cast, director, genre,
          release_date, last_modified, rating, rating_5based,
          backdrop_path, youtube_trailer, episode_run_time,
          category_id := natToStr categoryId }
  | _, _, _, _, _, _, _, _, _, _, _, _, _, _ => .error ()

/-- `get_all_series`' per-item mapping (`api_client.py` 791–808):
`series_id`, `category_id`, `name` and `cover` are direct-indexed, every
other field is `.get` with a default (`""`, `0.0`, `[]`). -/
def mapSeriesAll (it : SeriesItem) : Except Unit SeriesRow :=
  match it.series_id, it.category_id, it.name, it.cover with
  | some series_id, some category_id, some name, some cover =>
    .ok { series_id, name, cover
          plot := it.plot.getD ""
          cast := it.cast.getD ""
          director := it.director.getD ""
          genre := it.genre.getD ""
          release_date := it.releaseDate.getD ""
          last_modified := it.last_modified.getD ""
          rating := it.rating.getD ""
          rating_5based := it.rating_5based.getD 0
          backdrop_path := it.backdrop_path.getD []
          youtube_trailer := it.youtube_trailer.getD ""
          episode_run_time := it.episode_run_time.getD ""
          category_id }
  | _, _, _, _ => .error ()

/-- Upstream VOD-info payload (`get_vod_info`): the `info` dict is read
entirely with `.get` defaults; `movie_data.container_extension` likewise. -/
structure FilmDetailItem where
  name : Option String
  o_name : Option String
  movie_image : Option String
  cover_big : Option String
  plot : Option String
  cast : Option String
  director : Option String
  genre : Option String
  releasedate : Option String
  rating : Option String
  rating_5based : Option Rat
  duration_secs : Option Nat
  duration : Option String
  youtube_trailer : Option String
  tmdb_id : Option String
  kinopoisk_url : Option String
  episode_run_time : Option String
  actors : Option String
  description : Option String
  age : Option String
  mpaa_rating : Option String
  rating_count_kinopoisk : Option Nat
  country : Option String
  backdrop_path : Option (List String)
  bitrate : Option Nat
  video : Option (List (String × String))
  audio : Option (List (String × String))
  container_extension : Option String
deriving Repr, DecidableEq

/-- `_get_film_details_from_db`'s field assignment (`api_client.py`
1096–1128): every field defaulted; `stream_icon` is set from
`movie_image`. -/
def mapFilmDetail (vodId : Nat) (it : FilmDetailItem) : FilmDetailRow :=
  { stream_id := vodId
    name := it.name.getD ""
    o_name := it.o_name.getD ""
    stream_icon := it.movie_image.getD ""
    cover_big := it.cover_big.getD ""
    movie_image := it.movie_image.getD ""
    plot := it.plot.getD ""
    cast := it.cast.getD ""
    director := it.director.getD ""
    genre := it.genre.getD ""
    release_date := it.releasedate.getD ""
    rating := it.rating.getD ""
    rating_5based := it.rating_5based.getD 0
    duration_secs := it.duration_secs.getD 0
    duration := it.duration.getD ""
    youtube_trailer := it.youtube_trailer.getD ""
    container_extension := it.container_extension.getD ""
    tmdb_id := it.tmdb_id.getD ""
    kinopoisk_url := it.kinopoisk_url.getD ""
    episode_run_time := it.episode_run_time.getD ""
    actors := it.actors.getD ""
    description := it.description.getD ""
    age := it.age.getD ""
    mpaa_rating := it.mpaa_rating.getD ""
    rating_count_kinopoisk := it.rating_count_kinopoisk.getD 0
    country := it.country.getD ""
    backdrop_path := it.backdrop_path.getD []
    bitrate := it.bitrate.getD 0
    video := it.video.getD []
    audio := it.audio.getD [] }

/-- Upstream EPG listing object (`get_simple_data_table`); every field is
direct-indexed in the source. -/
structure EpgItem where
  epg_id : String
  title : String
  lang : String
  start : String
  stop : String
  description : String
  channel_id : String
  start_timestamp : Nat
  stop_timestamp : Nat
  now_playing : Bool
  has_archive : Bool
deriving Repr, DecidableEq

/-- `_get_epg_info_from_db`'s per-item storage mapping (`api_client.py`
1221–1234): all fields stored as received — in particular `title` and
`description` keep their base64 wire encoding — with `stream_id` stamped
from the request. -/
def mapEpgListing (streamId : Nat) (it : EpgItem) : EpgListingRow :=
  { epg_id := it.epg_id
    title := it.title
    lang := it.lang
    start := it.start
    stop := it.stop
    description := it.description
    channel_id := it.channel_id
    start_timestamp := it.start_timestamp
    stop_timestamp := it.stop_timestamp
    now_playing := it.now_playing
    has_archive := it.has_archive
    stream_id := streamId }

/-! ## Playback URL shaping (§4.5 / §6 of the spec) -/

/-- `f"{base_url}/live/{username}/{password}/{stream_id}.ts"`
(`api_client.py` 409). -/
def livePlayLink (conn : ConnectionInfo) (streamId : Nat) : String :=
  conn.base_url ++ "/live/" ++ conn.username ++ "/" ++ conn.password ++
    "/" ++ natToStr streamId ++ ".ts"

/-- `f"{base_url}/movie/{username}/{password}/{stream_id}.{container_extension}"`
(`api_client.py` 1042 and 1179–1181). -/
def filmPlayLink (conn : ConnectionInfo) (streamId : Nat)
    (containerExtension : String) : String :=
  conn.base_url ++ "/movie/" ++ conn.username ++ "/" ++ conn.password ++
    "/" ++ natToStr streamId ++ "." ++ containerExtension

/-- `f"{base_url}/series/{username}/{password}/{episode_dict['id']}.{episode_dict['container_extension']}"`
(`api_client.py` 743–745), where `episode_dict['id']` is `str(episode.id)`,
the stored episode row's id. -/
def episodePlayLink (conn : ConnectionInfo) (episodeId : Nat)
    (containerExtension : String) : String :=
  conn.base_url ++ "/series/" ++ conn.username ++ "/" ++ conn.password ++
    "/" ++ natToStr episodeId ++ "." ++ containerExtension

/-! ## Base64 and UTF-8 (the library calls of `_process_epg_listings`)

`_process_epg_listings` shapes EPG text with
`base64.b64decode(listing.title.encode()).decode("utf-8", errors="replace")`.
We model the two library functions:

* `b64DecodePy` is CPython's `binascii.a2b_base64` in its default
  non-strict mode: characters outside the base64 alphabet are skipped,
  `=` at quad position ≥ 2 that completes a quad ends the stream, and a
  leftover partial quad at end of input raises `binascii.Error`
  (`.error ()` here) — including the "Incorrect padding" and
  "cannot be 1 more than a multiple of 4" cases.
* `utf8DecodeReplace` is `bytes.decode("utf-8", errors="replace")`:
  strict UTF-8 (no overlong forms, no surrogates, max U+10FFFF), each
  maximal invalid prefix replaced by one U+FFFD.
* `b2a` is `base64.b64encode`, used to state the round-trip property.

Bytes are naturals below 256. -/

/-- Index of a character in the standard base64 alphabet, `none` for
characters outside it. -/
def b64Index (c : Char) : Option Nat :=
  if 'A' ≤ c ∧ c ≤ 'Z' then some (c.toNat - 65)
  else if 'a' ≤ c ∧ c ≤ 'z' then some (c.toNat - 97 + 26)
  else if '0' ≤ c ∧ c ≤ '9' then some (c.toNat - 48 + 52)
  else if c = '+' then some 62
  else if c = '/' then some 63
  else none

/-- The base64 alphabet character of a 6-bit value. -/
def b64Chr (i : Nat) : Char :=
  if i < 26 then Char.ofNat (65 + i)
  else if i < 52 then Char.ofNat (97 + (i - 26))
  else if i < 62 then Char.ofNat (48 + (i - 52))
  else if i = 62 then '+' else '/'

/-- `base64.b64encode`: 3-byte groups to 4 alphabet characters, with
`=`-padding for a 1- or 2-byte tail. -/
def b2a : List Nat → List Char
  | b1 :: b2 :: b3 :: rest =>
      b64Chr (b1 / 4) :: b64Chr ((b1 % 4) * 16 + b2 / 16) ::
        b64Chr ((b2 % 16) * 4 + b3 / 64) :: b64Chr (b3 % 64) :: b2a rest
  | [b1, b2] =>
      [b64Chr (b1 / 4), b64Chr ((b1 % 4) * 16 + b2 / 16),
        b64Chr ((b2 % 16) * 4), '=']
  | [b1] => [b64Chr (b1 / 4), b64Chr ((b1 % 4) * 16), '=', '=']
  | [] => []

/-- The base64 string a provider sends for a given byte sequence. -/
def b64EncodeStr (bs : List Nat) : String := String.mk (b2a bs)

/-- The three bytes encoded by a full quad of 6-bit values. -/
def decodeQuad (a b c d : Nat) : List Nat :=
  [a * 4 + b / 16, (b % 16) * 16 + c / 4, (c % 4) * 64 + d]

/-- The bytes recoverable from a partial quad ended by padding: two
values give one byte, three give two. -/
def flushQuad : List Nat → List Nat
  | [a, b] => [a * 4 + b / 16]
  | [a, b, c] => [a * 4 + b / 16, (b % 16) * 16 + c / 4]
  | _ => []

/-- `binascii.a2b_base64` (non-strict): `quad` holds the 6-bit values of
the current quad, `pads` the pending padding count, `acc` the output. -/
def a2bBase64 : List Char → List Nat → Nat → List Nat → Except Unit (List Nat)
  | [], quad, _, acc => if quad.isEmpty then .ok acc else .error ()
  | c :: rest, quad, pads, acc =>
    if c = '=' then
      if 2 ≤ quad.length ∧ 4 ≤ quad.length + (pads + 1) then
        .ok (acc ++ flushQuad quad)
      else a2bBase64 rest quad (pads + 1) acc
    else
      match b64Index c with
      | none => a2bBase64 rest quad pads acc
      | some v =>
        match quad with
        | [a, b, c3] => a2bBase64 rest [] 0 (acc ++ decodeQuad a b c3 v)
        | _ => a2bBase64 rest (quad ++ [v]) 0 acc

/-- `base64.b64decode(stored.encode())` on a stored text column. -/
def b64DecodePy (s : String) : Except Unit (List Nat) :=
  a2bBase64 s.data [] 0 []

/-- The U+FFFD replacement character produced by `errors="replace"`. -/
def replChar : Char := Char.ofNat 0xFFFD

/-- `bytes.decode("utf-8", errors="replace")`. -/
def utf8DecodeReplace : List Nat → List Char
  | [] => []
  | b :: rest =>
    if b < 0x80 then Char.ofNat b :: utf8DecodeReplace rest
    else if 0xC2 ≤ b ∧ b ≤ 0xDF then
      match rest with
      | b2 :: rest2 =>
        if 0x80 ≤ b2 ∧ b2 ≤ 0xBF then
          Char.ofNat ((b - 0xC0) * 64 + (b2 - 0x80)) :: utf8DecodeReplace rest2
        else replChar :: utf8DecodeReplace (b2 :: rest2)
      | [] => [replChar]
    else if 0xE0 ≤ b ∧ b ≤ 0xEF then
      match rest with
      | b2 :: rest2 =>
        if (if b = 0xE0 then 0xA0 ≤ b2 ∧ b2 ≤ 0xBF
            else if b = 0xED then 0x80 ≤ b2 ∧ b2 ≤ 0x9F
            else 0x80 ≤ b2 ∧ b2 ≤ 0xBF) then
          match rest2 with
          | b3 :: rest3 =>
            if 0x80 ≤ b3 ∧ b3 ≤ 0xBF then
              Char.ofNat ((b - 0xE0) * 4096 + (b2 - 0x80) * 64 + (b3 - 0x80)) ::
                utf8DecodeReplace rest3
            else replChar :: utf8DecodeReplace (b3 :: rest3)
          | [] => [replChar]
        else replChar :: utf8DecodeReplace (b2 :: rest2)
      | [] => [replChar]
    else if 0xF0 ≤ b ∧ b ≤ 0xF4 then
      match rest with
      | b2 :: rest2 =>
        if (if b = 0xF0 then 0x90 ≤ b2 ∧ b2 ≤ 0xBF
            else if b = 0xF4 then 0x80 ≤ b2 ∧ b2 ≤ 0x8F
            else 0x80 ≤ b2 ∧ b2 ≤ 0xBF) then
          match rest2 with
          | b3 :: rest3 =>
            if 0x80 ≤ b3 ∧ b3 ≤ 0xBF then
              match rest3 with
              | b4 :: rest4 =>
                if 0x80 ≤ b4 ∧ b4 ≤ 0xBF then
                  Char.ofNat ((b - 0xF0) * 262144 + (b2 - 0x80) * 4096 +
                      (b3 - 0x80) * 64 + (b4 - 0x80)) ::
                    utf8DecodeReplace rest4
                else replChar :: utf8DecodeReplace (b4 :: rest4)
              | [] => [replChar]
            else replChar :: utf8DecodeReplace (b3 :: rest3)
          | [] => [replChar]
        else replChar :: utf8DecodeReplace (b2 :: rest2)
      | [] => [replChar]
    else replChar :: utf8DecodeReplace rest

/-- UTF-8 encoding of one scalar value (Python `str.encode()`
per character). -/
def utf8EncodeChar (c : Char) : List Nat :=
  let n := c.toNat
  if n < 0x80 then [n]
  else if n < 0x800 then [0xC0 + n / 64, 0x80 + n % 64]
  else if n < 0x10000 then
    [0xE0 + n / 4096, 0x80 + (n / 64) % 64, 0x80 + n % 64]
  else
    [0xF0 + n / 262144, 0x80 + (n / 4096) % 64, 0x80 + (n / 64) % 64,
      0x80 + n % 64]

/-- `str.encode()`: UTF-8 bytes of a text. -/
def utf8Encode (s : String) : List Nat :=
  (s.data.map utf8EncodeChar).flatten

/-! ## Shaped (response) records

One structure per response dict the orchestrator builds; fields copied
from the stored row plus derived fields.  As noted in the header,
`added_date`, `cached_icon`/`cached_cover` and the surrogate `id` of EPG
listings are omitted. -/

/-- Shaped live channel (`api_client.py` 393–411). -/
structure ShapedLiveChannel where
  num : Nat
  name : String
  stream_type : String
  stream_id : Nat
  stream_icon : String
  epg_channel_id : String
  added : String
  category_id : String
  custom_sid : String
  tv_archive : Nat
  direct_source : String
  tv_archive_duration : Nat
  play_link : String
deriving Repr, DecidableEq

/-- Live channel shaping: copy the row and attach the `/live/…/{id}.ts`
playback URL. -/
def shapeLiveChannel (conn : ConnectionInfo) (r : LiveChannelRow) :
    ShapedLiveChannel :=
  { num := r.num, name := r.name, stream_type := r.stream_type
    stream_id := r.stream_id, stream_icon := r.stream_icon
    epg_channel_id := r.epg_channel_id, added := r.added
    category_id := r.category_id, custom_sid := r.custom_sid
    tv_archive := r.tv_archive, direct_source := r.direct_source
    tv_archive_duration := r.tv_archive_duration
    play_link := livePlayLink conn r.stream_id }

/-- Shaped film stream (`api_client.py` 1026–1044). -/
structure ShapedFilmStream where
  num : Nat
  name : String
  stream_type : String
  stream_id : Nat
  stream_icon : String
  rating : String
  rating_5based : Rat
  added : String
  category_id : String
  container_extension : String
  custom_sid : String
  direct_source : String
  play_link : String
deriving Repr, DecidableEq

/-- Film stream shaping: copy the row and attach the
`/movie/…/{id}.{ext}` playback URL. -/
def shapeFilmStream (conn : ConnectionInfo) (r : FilmStreamRow) :
    ShapedFilmStream :=
  { num := r.num, name := r.name, stream_type := r.stream_type
    stream_id := r.stream_id, stream_icon := r.stream_icon
    rating := r.rating, rating_5based := r.rating_5based, added := r.added
    category_id := r.category_id
    container_extension := r.container_extension
    custom_sid := r.custom_sid, direct_source := r.direct_source
    play_link := filmPlayLink conn r.stream_id r.container_extension }

/-- Shaped series episode (`api_client.py` 733–745); `id` is
`str(episode.id)`. -/
structure ShapedEpisode where
  id : String
  episode_num : Nat
  title : String
  container_extension : String
  plot : String
  duration : String
  rating : Rat
  info : List (String × String)
  play_link : String
deriving Repr, DecidableEq

/-- Episode shaping: the shaped `id` is the decimal rendering of the
stored row id, and the playback URL embeds that same id. -/
def shapeEpisode (conn : ConnectionInfo) (e : SeriesEpisodeRow) :
    ShapedEpisode :=
  { id := natToStr e.id
    episode_num := e.episode
    title := e.title
    container_extension := e.container_extension
    plot := e.plot
    duration := e.duration
    rating := e.rating
    info := e.info
    play_link := episodePlayLink conn e.id e.container_extension }

/-- Shaped series entry of the per-category listing
(`_convert_series_to_dict` / `_get_series_from_db`, identical dicts at
`api_client.py` 502–525 and 591–611): `num` is the constant `1`, and the
release date appears under both `releaseDate` and `release_date`. -/
structure ShapedSeries where
  num : Nat
  name : String
  series_id : Nat
  cover : String
  plot : String
  cast : String
  director : String
  genre : String
  releaseDate : String
  last_modified : String
  rating : String
  rating_5based : Rat
  backdrop_path : List String
  youtube_trailer : String
  episode_run_time : String
  category_id : String
  release_date : String
deriving Repr, DecidableEq

/-- Per-category series shaping. -/
def shapeSeries (r : SeriesRow) : ShapedSeries :=
  { num := 1, name := r.name, series_id := r.series_id, cover := r.cover
    plot := r.plot, cast := r.cast, director := r.director
    genre := r.genre, releaseDate := r.release_date
    last_modified := r.last_modified, rating := r.rating
    rating_5based := r.rating_5based, backdrop_path := r.backdrop_path
    youtube_trailer := r.youtube_trailer
    episode_run_time := r.episode_run_time, category_id := r.category_id
    release_date := r.release_date }

/-- Shaped series entry of `get_all_series` (`api_client.py` 855–874). -/
structure ShapedSeriesBasic where
  series_id : Nat
  category_id : String
  name : String
  cover : String
  plot : String
  cast : String
  director : String
  genre : String
  releaseDate : String
  last_modified : String
  rating : String
  rating_5based : Rat
  backdrop_path : List String
  youtube_trailer : String
  episode_run_time : String
deriving Repr, DecidableEq

/-- All-series shaping. -/
def shapeSeriesBasic (r : SeriesRow) : ShapedSeriesBasic :=
  { series_id := r.series_id, category_id := r.category_id
    name := r.name, cover := r.cover, plot := r.plot, cast := r.cast
    director := r.director, genre := r.genre
    releaseDate := r.release_date, last_modified := r.last_modified
    rating := r.rating, rating_5based := r.rating_5based
    backdrop_path := r.backdrop_path
    youtube_trailer := r.youtube_trailer
    episode_run_time := r.episode_run_time }

/-- Shaped film detail (`api_client.py` 1143–1181): flattened `info` and
`movie_data` fields plus the playback URL. -/
structure ShapedFilmDetail where
  name : String
  o_name : String
  movie_image : String
  cover_big : String
  plot : String
  cast : String
  director : String
  genre : String
  releasedate : String
  rating : String
  rating_5based : Rat
  duration_secs : Nat
  duration : String
  youtube_trailer : String
  tmdb_id : String
  kinopoisk_url : String
  episode_run_time : String
  actors : String
  description : String
  age : String
  mpaa_rating : String
  rating_count_kinopoisk : Nat
  country : String
  backdrop_path : List String
  bitrate : Nat
  video : List (String × String)
  audio : List (String × String)
  stream_id : Nat
  container_extension : String
  play_link : String
deriving Repr, DecidableEq

/-- Film detail shaping. -/
def shapeFilmDetail (conn : ConnectionInfo) (r : FilmDetailRow) :
    ShapedFilmDetail :=
  { name := r.name, o_name := r.o_name, movie_image := r.movie_image
    cover_big := r.cover_big, plot := r.plot, cast := r.cast
    director := r.director, genre := r.genre
    releasedate := r.release_date, rating := r.rating
    rating_5based := r.rating_5based, duration_secs := r.duration_secs
    duration := r.duration, youtube_trailer := r.youtube_trailer
    tmdb_id := r.tmdb_id, kinopoisk_url := r.kinopoisk_url
    episode_run_time := r.episode_run_time, actors := r.actors
    description := r.description, age := r.age
    mpaa_rating := r.mpaa_rating
    rating_count_kinopoisk := r.rating_count_kinopoisk
    country := r.country, backdrop_path := r.backdrop_path
    bitrate := r.bitrate, video := r.video, audio := r.audio
    stream_id := r.stream_id
    container_extension := r.container_extension
    play_link := filmPlayLink conn r.stream_id r.container_extension }

/-- Shaped EPG listing (`_process_epg_listings`): `title` and
`description` decoded from base64 at read time. -/
structure ShapedEpgListing where
  epg_id : String
  title : String
  lang : String
  start : String
  stop : String
  description : String
  channel_id : String
  start_timestamp : Nat
  stop_timestamp : Nat
  now_playing : Bool
  has_archive : Bool
deriving Repr, DecidableEq

/-- EPG shaping (`api_client.py` 1261–1283): decode `title` and
`description` from their stored base64 form; a `binascii.Error` from
`b64decode` propagates (`Except.error`), while undecodable UTF-8 bytes
become U+FFFD via `errors="replace"`. -/
def shapeEpgListing (l : EpgListingRow) : Except Unit ShapedEpgListing := do
  let titleBytes ← b64DecodePy l.title
  let descriptionBytes ← b64DecodePy l.description
  return { epg_id := l.epg_id
           title := String.mk (utf8DecodeReplace titleBytes)
           lang := l.lang
           start := l.start
           stop := l.stop
           description := String.mk (utf8DecodeReplace descriptionBytes)
           channel_id := l.channel_id
           start_timestamp := l.start_timestamp
           stop_timestamp := l.stop_timestamp
           now_playing := l.now_playing
           has_archive := l.has_archive }

/-! ## Detail-resource staleness

`get_user_info` / `_get_user_info_from_db` (`api_client.py` 71–76,
163–168) and `_get_film_details_from_db` (1079–1084) additionally refresh
when the local row itself is absent:

```
if (force_refresh or not refresh_data or not film_detail
    or datetime.utcnow() - refresh_data.last_refresh > timedelta(hours=24)):
```
-/

/-- The gate of the singleton/detail resources: also stale when the local
row is absent. -/
def detailIsStale {α : Type} (forceRefresh : Bool) (record : Option Nat)
    (row : Option α) (now : Nat) : Bool :=
  forceRefresh ||
    match record with
    | none => true
    | some lastRefresh => row.isNone || decide (now - lastRefresh > hours24)

/-! ## Orchestrators (`fetchOrRead` instantiations)

Each function takes the inputs the Python method obtains from its
environment — `force_refresh`, the clock value `datetime.utcnow()` reads,
and the upstream response the network would deliver — plus the session
state, and returns the shaped data, the freshness timestamps where the
source returns them, the post-call session state, and whether an
upstream fetch was performed. -/

/-- Result of an orchestrator that returns `(data, fetchedAt, expiresAt)`
(`expiresAt = fetchedAt + 24h`), instrumented with the post-call database
state and the fetch flag. -/
structure FetchResult (α : Type) where
  data : α
  fetchedAt : Nat
  expiresAt : Nat
  db : DBState
  fetched : Bool
deriving Repr, DecidableEq

/-- Result of an orchestrator that returns only the shaped list,
instrumented the same way. -/
structure ListResult (α : Type) where
  data : α
  db : DBState
  fetched : Bool
deriving Repr, DecidableEq

/-- `_get_live_categories_from_db` (`api_client.py` 257–315): staleness
gate, full-table replace (delete all rows, insert the payload), touch,
then read back every category.  The shaped dict has exactly the row's
fields, so the read-back rows are returned as-is. -/
def getLiveCategories (force : Bool) (now : Nat)
    (upstream : Except Unit (List LiveCategoryItem)) (s : DBState) :
    Except Unit (FetchResult (List LiveCategoryRow)) :=
  let record := findRefresh s "live_categories"
  let step : Except Unit (DBState × Bool) :=
    if isStale force record now then
      match upstream with
      | .error e => .error e
      | .ok data =>
        let s1 := { s with live_categories := data.map mapLiveCategory }
        .ok (touch s1 "live_categories" now, true)
    else .ok (s, false)
  match step with
  | .error e => .error e
  | .ok (s1, fetched) =>
    let t := (findRefresh s1 "live_categories").getD 0
    .ok ⟨s1.live_categories, t, t + hours24, s1, fetched⟩

/-- `_get_live_channels_from_db` (`api_client.py` 328–414): staleness
gate on key `live_channels_{category_id}`, scoped replace (delete only
rows with this category id, insert the mapped payload), touch, read back
the category's rows and shape them. -/
def getLiveChannels (conn : ConnectionInfo) (categoryId : Nat)
    (force : Bool) (now : Nat)
    (upstream : Except Unit (List LiveChannelItem)) (s : DBState) :
    Except Unit (ListResult (List ShapedLiveChannel)) :=
  let key := "live_channels_" ++ natToStr categoryId
  let record := findRefresh s key
  let step : Except Unit (DBState × Bool) :=
    if isStale force record now then
      match upstream with
      | .error e => .error e
      | .ok data =>
        let kept := s.live_channels.filter
          (fun r => !(r.category_id == natToStr categoryId))
        let s1 := { s with
          live_channels := kept ++ data.map (mapLiveChannel categoryId) }
        .ok (touch s1 key now, true)
    else .ok (s, false)
  match step with
  | .error e => .error e
  | .ok (s1, fetched) =>
    let rows := s1.live_channels.filter
      (fun r => r.category_id == natToStr categoryId)
    .ok ⟨rows.map (shapeLiveChannel conn), s1, fetched⟩

/-- `_get_series_from_db` (`api_client.py` 527–614): staleness gate on
key `series_{category_id}`, scoped replace of the category's series
(each payload item mapped with the raising per-category mapper), touch,
read back and shape. -/
def getSeriesFromDb (categoryId : Nat) (force : Bool) (now : Nat)
    (upstream : Except Unit (List SeriesItem)) (s : DBState) :
    Except Unit (ListResult (List ShapedSeries)) :=
  let key := "series_" ++ natToStr categoryId
  let record := findRefresh s key
  let step : Except Unit (DBState × Bool) :=
    if isStale force record now then
      match upstream with
      | .error e => .error e
      | .ok data =>
        match data.mapM (mapSeriesPerCategory categoryId) with
        | .error e => .error e
        | .ok rows =>
          let kept := s.series.filter
            (fun r => !(r.category_id == natToStr categoryId))
          .ok (touch { s with series := kept ++ rows } key now, true)
    else .ok (s, false)
  match step with
  | .error e => .error e
  | .ok (s1, fetched) =>
    let rows := s1.series.filter
      (fun r => r.category_id == natToStr categoryId)
    .ok ⟨rows.map shapeSeries, s1, fetched⟩

/-- `get_series_by_category` (`api_client.py` 484–499): when the store
already has series for the category and no refresh is forced, return
them converted, with no fetch, no freshness lookup and no store
mutation; otherwise fall through to `_get_series_from_db`. -/
def getSeriesByCategory (categoryId : Nat) (force : Bool) (now : Nat)
    (upstream : Except Unit (List SeriesItem)) (s : DBState) :
    Except Unit (ListResult (List ShapedSeries)) :=
  let existing := s.series.filter
    (fun r => r.category_id == natToStr categoryId)
  if !existing.isEmpty && !force then
    .ok ⟨existing.map shapeSeries, s, false⟩
  else getSeriesFromDb categoryId force now upstream s

/-- `get_all_series` (`api_client.py` 755–880): staleness gate on key
`all_series`, delete of the whole `series` table, batched insert of the
mapped payload (the batching splits the same row sequence into chunks of
500, leaving the resulting table unchanged), touch, read back everything.
The route commits after the call (`routes/series.py` 89). -/
def getAllSeries (force : Bool) (now : Nat)
    (upstream : Except Unit (List SeriesItem)) (s : DBState) :
    Except Unit (FetchResult (List ShapedSeriesBasic)) :=
  let record := findRefresh s "all_series"
  let step : Except Unit (DBState × Bool) :=
    if isStale force record now then
      match upstream with
      | .error e => .error e
      | .ok data =>
        match data.mapM mapSeriesAll with
        | .error e => .error e
        | .ok rows =>
          .ok (touch { s with series := rows } "all_series" now, true)
    else .ok (s, false)
  match step with
  | .error e => .error e
  | .ok (s1, fetched) =>
    let t := (findRefresh s1 "all_series").getD 0
    .ok ⟨s1.series.map shapeSeriesBasic, t, t + hours24, s1, fetched⟩

/-- `_get_film_streams_from_db` (`api_client.py` 961–1047): staleness
gate on key `film_streams_{category_id}`, scoped replace, touch, read
back the category's rows and shape them. -/
def getFilmStreams (conn : ConnectionInfo) (categoryId : Nat)
    (force : Bool) (now : Nat)
    (upstream : Except Unit (List FilmStreamItem)) (s : DBState) :
    Except Unit (ListResult (List ShapedFilmStream)) :=
  let key := "film_streams_" ++ natToStr categoryId
  let record := findRefresh s key
  let step : Except Unit (DBState × Bool) :=
    if isStale force record now then
      match upstream with
      | .error e => .error e
      | .ok data =>
        let kept := s.film_streams.filter
          (fun r => !(r.category_id == natToStr categoryId))
        let s1 := { s with
          film_streams := kept ++ data.map (mapFilmStream categoryId) }
        .ok (touch s1 key now, true)
    else .ok (s, false)
  match step with
  | .error e => .error e
  | .ok (s1, fetched) =>
    let rows := s1.film_streams.filter
      (fun r => r.category_id == natToStr categoryId)
    .ok ⟨rows.map (shapeFilmStream conn), s1, fetched⟩

/-- The upsert of `_get_film_details_from_db`: update the existing row
for this vod id in place (every content field overwritten), or insert a
new one. -/
def upsertFilmDetail (rows : List FilmDetailRow) (vodId : Nat)
    (row : FilmDetailRow) : List FilmDetailRow :=
  if rows.any (fun r => r.stream_id == vodId) then
    rows.map (fun r => if r.stream_id == vodId then row else r)
  else rows ++ [row]

/-- `_get_film_details_from_db` (`api_client.py` 1063–1187): detail
staleness gate (absent row also refreshes), upsert, touch, then shape
the (now necessarily present) row. -/
def getFilmDetails (conn : ConnectionInfo) (vodId : Nat) (force : Bool)
    (now : Nat) (upstream : Except Unit FilmDetailItem) (s : DBState) :
    Except Unit (FetchResult ShapedFilmDetail) :=
  let key := "film_details_" ++ natToStr vodId
  let record := findRefresh s key
  let detail := s.film_details.find? (fun r => r.stream_id == vodId)
  let step : Except Unit (DBState × Bool) :=
    if detailIsStale force record detail now then
      match upstream with
      | .error e => .error e
      | .ok it =>
        let s1 := { s with
          film_details := upsertFilmDetail s.film_details vodId
            (mapFilmDetail vodId it) }
        .ok (touch s1 key now, true)
    else .ok (s, false)
  match step with
  | .error e => .error e
  | .ok (s1, fetched) =>
    match s1.film_details.find? (fun r => r.stream_id == vodId) with
    | none => .error ()
    | some row =>
      let t := (findRefresh s1 key).getD 0
      .ok ⟨shapeFilmDetail conn row, t, t + hours24, s1, fetched⟩

/-- `_get_user_info_from_db` / `get_user_info` (`api_client.py` 60–247):
detail staleness gate on the singleton `UserInfo` row, full overwrite of
that row from the payload (the payload structure already carries exactly
the stored fields), touch, then echo the row. -/
def getUserInfo (force : Bool) (now : Nat)
    (upstream : Except Unit UserInfoRow) (s : DBState) :
    Except Unit (FetchResult UserInfoRow) :=
  let record := findRefresh s "user_info"
  let step : Except Unit (DBState × Bool) :=
    if detailIsStale force record s.user_info now then
      match upstream with
      | .error e => .error e
      | .ok it =>
        .ok (touch { s with user_info := some it } "user_info" now, true)
    else .ok (s, false)
  match step with
  | .error e => .error e
  | .ok (s1, fetched) =>
    match s1.user_info with
    | none => .error ()
    | some u =>
      let t := (findRefresh s1 "user_info").getD 0
      .ok ⟨u, t, t + hours24, s1, fetched⟩

/-- `_get_epg_info_from_db` (`api_client.py` 1194–1259): gate without any
`force_refresh` parameter, scoped replace of the stream's listings
(payload `epg_listings` defaulted to `[]` when absent), touch, read back
and shape (which can itself raise on undecodable stored base64). -/
def getEpgInfo (streamId : Nat) (now : Nat)
    (upstream : Except Unit (Option (List EpgItem))) (s : DBState) :
    Except Unit (FetchResult (List ShapedEpgListing)) :=
  let key := "epg_" ++ natToStr streamId
  let record := findRefresh s key
  let step : Except Unit (DBState × Bool) :=
    if epgIsStale record now then
      match upstream with
      | .error e => .error e
      | .ok payload =>
        let items := payload.getD []
        let kept := s.epg_listings.filter
          (fun r => !(r.stream_id == streamId))
        let s1 := { s with
          epg_listings := kept ++ items.map (mapEpgListing streamId) }
        .ok (touch s1 key now, true)
    else .ok (s, false)
  match step with
  | .error e => .error e
  | .ok (s1, fetched) =>
    let rows := s1.epg_listings.filter (fun r => r.stream_id == streamId)
    match rows.mapM shapeEpgListing with
    | .error e => .error e
    | .ok shaped =>
      let t := (findRefresh s1 key).getD 0
      .ok ⟨shaped, t, t + hours24, s1, fetched⟩

/-! ## The refresh unit as a transaction (claim C2)

In the source, every mutation of a refresh unit (the scoped delete, the
inserts, the freshness touch) happens on one SQLAlchemy session and is
committed by the single `db.commit()` at the unit's end
(`api_client.py` 295); a fetch error is raised before any mutation, and
a store error makes `get_db` (`database.py` 231–240) roll the session
back, discarding the uncommitted unit. -/

/-- Errors aborting a refresh unit. -/
inductive RefreshError where
  | fetchError
  | storeError
deriving Repr, DecidableEq

/-- The live-categories refresh unit with its failure modes: the fetch
either fails (before any mutation) or yields `data`; the store writes
either all succeed and the unit commits, or raise (`writeOk = false`)
and the unit aborts. -/
def refreshTxnLiveCategories (now : Nat)
    (upstream : Except Unit (List LiveCategoryItem)) (writeOk : Bool)
    (s : DBState) : Except RefreshError DBState :=
  match upstream with
  | .error _ => .error .fetchError
  | .ok data =>
    if writeOk then
      .ok (touch { s with live_categories := data.map mapLiveCategory }
        "live_categories" now)
    else .error .storeError

/-- The database state observable after the refresh unit ran: the
committed state on success, the rolled-back (original) state on any
error. -/
def observedAfterRefresh (now : Nat)
    (upstream : Except Unit (List LiveCategoryItem)) (writeOk : Bool)
    (s : DBState) : DBState :=
  match refreshTxnLiveCategories now upstream writeOk s with
  | .ok s1 => s1
  | .error _ => s

/-! ## Claim theorems -/

/-- A sample connection used by concrete instances. -/
def sampleConn : ConnectionInfo := ⟨"http://x.tv", "u", "p"⟩

/-- C1: the staleness decision gating the upstream fetch is true iff
`forceRefresh` is true, or no freshness record exists, or strictly more
than 24 hours elapsed since `last_refresh`; it is the fetch gate of the
orchestrators; it is false immediately after a refresh touches the
record, and still false at exactly 24 hours elapsed. -/
theorem stale_gate_characterisation :
    (∀ (force : Bool) (record : Option Nat) (now : Nat),
        isStale force record now = true ↔
          (force = true ∨ record = none ∨
            ∃ t, record = some t ∧ now - t > hours24)) ∧
    (∀ (force : Bool) (now : Nat)
        (upstream : Except Unit (List LiveCategoryItem)) (s : DBState)
        (r : FetchResult (List LiveCategoryRow)),
        getLiveCategories force now upstream s = .ok r →
          r.fetched = isStale force (findRefresh s "live_categories") now) ∧
    (∀ (conn : ConnectionInfo) (categoryId : Nat) (force : Bool) (now : Nat)
        (upstream : Except Unit (List LiveChannelItem)) (s : DBState)
        (r : ListResult (List ShapedLiveChannel)),
        getLiveChannels conn categoryId force now upstream s = .ok r →
          r.fetched =
            isStale force
              (findRefresh s ("live_channels_" ++ natToStr categoryId)) now) ∧
    (∀ (s : DBState) (k : String) (now : Nat),
        isStale false (findRefresh (touch s k now) k) now = false) ∧
    (∀ t : Nat, isStale false (some t) (t + hours24) = false) := by
  refine ⟨?_, ?_, ?_, ?_, ?_⟩
  · intro force record now
    cases force <;> cases record <;> simp [isStale]
  · intro force now upstream s r h
    unfold getLiveCategories at h
    by_cases hs : isStale force (findRefresh s "live_categories") now
    · simp only [hs, if_true] at h
      cases upstream with
      | error e => simp at h
      | ok data =>
        simp only [Except.ok.injEq] at h
        subst h
        simp [hs]
    · simp only [hs, if_false, Bool.false_eq_true] at h
      simp only [Except.ok.injEq] at h
      subst h
      simp only [Bool.not_eq_true] at hs
      simp [hs]
  · intro conn categoryId force now upstream s r h
    unfold getLiveChannels at h
    by_cases hs :
        isStale force
          (findRefresh s ("live_channels_" ++ natToStr categoryId)) now
    · simp only [hs, if_true] at h
      cases upstream with
      | error e => simp at h
      | ok data =>
        simp only [Except.ok.injEq] at h
        subst h
        simp [hs]
    · simp only [hs, if_false, Bool.false_eq_true] at h
      simp only [Except.ok.injEq] at h
      subst h
      simp only [Bool.not_eq_true] at hs
      simp [hs]
  · intro s k now
    rw [findRefresh_touch_self]
    simp [isStale]
  · intro t
    simp [isStale]

/-- Witness for `stale_gate_characterisation`: on the empty database with
`force = false` the first call fetches (`fetched = true`), matching the
gate's value on an absent record. -/
theorem stale_gate_characterisation_witness :
    ((⟨[], 0, hours24,
        ⟨[("live_categories", 0)], none, [], [], [], [], [], []⟩, true⟩ :
      FetchResult (List LiveCategoryRow)).fetched =
      isStale false (findRefresh DBState.empty "live_categories") 0) ∧
    (0 - 0 > hours24 ∨ (none : Option Nat) = none ∨ False) :=
  ⟨stale_gate_characterisation.2.1 false 0 (.ok []) DBState.empty _ rfl,
    Or.inr (Or.inl rfl)⟩

/-- C7: the derived playback URLs follow the per-type concatenation
patterns: `/live/…/{streamId}.ts` for channels,
`/movie/…/{streamId}.{ext}` for films (with the concrete instance from
the spec), `/series/…/{episodeId}.{ext}` for episodes, where the shaped
episode id is the stored episode row's id. -/
theorem play_link_patterns :
    (∀ (conn : ConnectionInfo) (r : LiveChannelRow),
        (shapeLiveChannel conn r).play_link =
          conn.base_url ++ "/live/" ++ conn.username ++ "/" ++
            conn.password ++ "/" ++ natToStr r.stream_id ++ ".ts") ∧
    (∀ (conn : ConnectionInfo) (r : FilmStreamRow),
        (shapeFilmStream conn r).play_link =
          conn.base_url ++ "/movie/" ++ conn.username ++ "/" ++
            conn.password ++ "/" ++ natToStr r.stream_id ++ "." ++
            r.container_extension) ∧
    (∀ (conn : ConnectionInfo) (r : FilmDetailRow),
        (shapeFilmDetail conn r).play_link =
          conn.base_url ++ "/movie/" ++ conn.username ++ "/" ++
            conn.password ++ "/" ++ natToStr r.stream_id ++ "." ++
            r.container_extension) ∧
    (∀ (conn : ConnectionInfo) (e : SeriesEpisodeRow),
        (shapeEpisode conn e).play_link =
          conn.base_url ++ "/series/" ++ conn.username ++ "/" ++
            conn.password ++ "/" ++ natToStr e.id ++ "." ++
            e.container_extension ∧
        (shapeEpisode conn e).id = natToStr e.id) ∧
    filmPlayLink sampleConn 42 "mp4" = "http://x.tv/movie/u/p/42.mp4" := by
  refine ⟨fun conn r => rfl, fun conn r => rfl, fun conn r => rfl,
    fun conn e => ⟨rfl, rfl⟩, by decide⟩

/-- C10: whenever the store already holds at least one series row for the
requested category and `force_refresh` is false, `get_series_by_category`
returns exactly those stored rows (shaped), performs no upstream fetch,
and leaves the database — including every freshness record — untouched,
whatever the clock value and upstream data would have been. -/
theorem series_by_category_short_circuit (categoryId : Nat) (now : Nat)
    (upstream : Except Unit (List SeriesItem)) (s : DBState)
    (h : s.series.filter
      (fun r => r.category_id == natToStr categoryId) ≠ []) :
    getSeriesByCategory categoryId false now upstream s =
      .ok ⟨(s.series.filter
          (fun r => r.category_id == natToStr categoryId)).map shapeSeries,
        s, false⟩ := by
  unfold getSeriesByCategory
  have hne : (s.series.filter
      (fun r => r.category_id == natToStr categoryId)).isEmpty = false := by
    cases hf : s.series.filter (fun r => r.category_id == natToStr categoryId) with
    | nil => exact absurd hf h
    | cons a tl => rfl
  simp [hne]

/-- A stored series row of category 7, for concrete instances. -/
def sampleSeriesRow : SeriesRow :=
  { series_id := 11, name := "S", cover := "c", plot := "p", cast := "a"
    director := "d", genre := "g", release_date := "2020", last_modified := "1"
    rating := "5", rating_5based := 0, backdrop_path := [], youtube_trailer := ""
    episode_run_time := "40", category_id := "7" }

/-- A database holding `sampleSeriesRow` and a deliberately ancient
freshness record for `series_7`. -/
def sampleSeriesState : DBState :=
  { DBState.empty with
      series := [sampleSeriesRow]
      refresh_data := [("series_7", 0)] }

/-- Witness for `series_by_category_short_circuit`: with one stored row
of category 7 and a freshness record far in the past, the call at a much
later clock still returns the stored row without fetching or mutating. -/
theorem series_by_category_short_circuit_witness :
    getSeriesByCategory 7 false (1000 * hours24) (.error ())
        sampleSeriesState =
      .ok ⟨(sampleSeriesState.series.filter
          (fun r => r.category_id == natToStr 7)).map shapeSeries,
        sampleSeriesState, false⟩ :=
  series_by_category_short_circuit 7 (1000 * hours24) (.error ())
    sampleSeriesState (by decide)

/-- A database whose only content is a just-touched freshness record for
`epg_5` (timestamp 0). -/
def epgFreshState : DBState :=
  { DBState.empty with refresh_data := [("epg_5", 0)] }

/-- An upstream EPG listing with base64-encoded text fields. -/
def sampleEpgItem : EpgItem :=
  { epg_id := "e1", title := "QQ==", lang := "en"
    start := "2024-01-01 00:00:00", stop := "2024-01-01 01:00:00"
    description := "QQ==", channel_id := "c1", start_timestamp := 0
    stop_timestamp := 3600, now_playing := false, has_archive := false }

/-- C4 counterexample: the EPG fetch-or-read operation accepts no
`forceRefresh` flag at all (its model, like `get_epg_info` in the source,
has no such parameter), and with a fresh freshness record it performs no
upstream fetch even though upstream data is available — so no forced
fetch of EPG data is possible, contradicting the claim for the EPG
resource kind. -/
theorem epg_no_forced_fetch_counterexample :
    getEpgInfo 5 0 (.ok (some [sampleEpgItem])) epgFreshState =
      .ok ⟨[], 0, hours24, epgFreshState, false⟩ := by
  rfl

/-- C4 amended: every orchestrator operation except the EPG one accepts a
`forceRefresh` flag and, whenever it is true, performs an upstream fetch
even if the freshness record is fresh and local rows exist; the EPG
operation has no such flag and never fetches while its freshness record
is fresh. -/
theorem force_refresh_always_fetches :
    (∀ (now : Nat) (upstream : Except Unit (List LiveCategoryItem))
        (s : DBState) r,
        getLiveCategories true now upstream s = .ok r → r.fetched = true) ∧
    (∀ (conn : ConnectionInfo) (categoryId now : Nat)
        (upstream : Except Unit (List LiveChannelItem)) (s : DBState) r,
        getLiveChannels conn categoryId true now upstream s = .ok r →
          r.fetched = true) ∧
    (∀ (categoryId now : Nat) (upstream : Except Unit (List SeriesItem))
        (s : DBState) r,
        getSeriesByCategory categoryId true now upstream s = .ok r →
          r.fetched = true) ∧
    (∀ (now : Nat) (upstream : Except Unit (List SeriesItem))
        (s : DBState) r,
        getAllSeries true now upstream s = .ok r → r.fetched = true) ∧
    (∀ (conn : ConnectionInfo) (categoryId now : Nat)
        (upstream : Except Unit (List FilmStreamItem)) (s : DBState) r,
        getFilmStreams conn categoryId true now upstream s = .ok r →
          r.fetched = true) ∧
    (∀ (conn : ConnectionInfo) (vodId now : Nat)
        (upstream : Except Unit FilmDetailItem) (s : DBState) r,
        getFilmDetails conn vodId true now upstream s = .ok r →
          r.fetched = true) ∧
    (∀ (now : Nat) (upstream : Except Unit UserInfoRow) (s : DBState) r,
        getUserInfo true now upstream s = .ok r → r.fetched = true) ∧
    (∀ (streamId now t : Nat)
        (upstream : Except Unit (Option (List EpgItem))) (s : DBState) r,
        findRefresh s ("epg_" ++ natToStr streamId) = some t →
        now - t ≤ hours24 →
        getEpgInfo streamId now upstream s = .ok r → r.fetched = false) := by
  have hstale : ∀ (record : Option Nat) (now : Nat),
      isStale true record now = true := by
    intro record now; simp [isStale]
  have hdetail : ∀ {α : Type} (record : Option Nat) (row : Option α)
      (now : Nat), detailIsStale true record row now = true := by
    intro α record row now; simp [detailIsStale]
  refine ⟨?_, ?_, ?_, ?_, ?_, ?_, ?_, ?_⟩
  · intro now upstream s r h
    unfold getLiveCategories at h
    simp only [hstale, if_true] at h
    cases upstream with
    | error e => simp at h
    | ok data =>
      simp only [Except.ok.injEq] at h
      subst h
      rfl
  · intro conn categoryId now upstream s r h
    unfold getLiveChannels at h
    simp only [hstale, if_true] at h
    cases upstream with
    | error e => simp at h
    | ok data =>
      simp only [Except.ok.injEq] at h
      subst h
      rfl
  · intro categoryId now upstream s r h
    unfold getSeriesByCategory at h
    simp only [Bool.not_true, Bool.and_false, Bool.false_eq_true,
      if_false] at h
    unfold getSeriesFromDb at h
    simp only [hstale, if_true] at h
    cases upstream with
    | error e => simp at h
    | ok data =>
      cases hmap : data.mapM (mapSeriesPerCategory categoryId) with
      | error e =>
        simp only [hmap] at h
        simp at h
      | ok rows =>
        simp only [hmap, Except.ok.injEq] at h
        subst h
        rfl
  · intro now upstream s r h
    unfold getAllSeries at h
    simp only [hstale, if_true] at h
    cases upstream with
    | error e => simp at h
    | ok data =>
      cases hmap : data.mapM mapSeriesAll with
      | error e =>
        simp only [hmap] at h
        simp at h
      | ok rows =>
        simp only [hmap, Except.ok.injEq] at h
        subst h
        rfl
  · intro conn categoryId now upstream s r h
    unfold getFilmStreams at h
    simp only [hstale, if_true] at h
    cases upstream with
    | error e => simp at h
    | ok data =>
      simp only [Except.ok.injEq] at h
      subst h
      rfl
  · intro conn vodId now upstream s r h
    unfold getFilmDetails at h
    simp only [hdetail, if_true] at h
    cases upstream with
    | error e => simp at h
    | ok it =>
      simp only at h
      cases hfind : (touch
          { s with film_details :=
              upsertFilmDetail s.film_details vodId (mapFilmDetail vodId it) }
          ("film_details_" ++ natToStr vodId) now).film_details.find?
          (fun rr => rr.stream_id == vodId) with
      | none => rw [hfind] at h; simp at h
      | some row =>
        rw [hfind] at h
        simp only [Except.ok.injEq] at h
        subst h
        rfl
  · intro now upstream s r h
    unfold getUserInfo at h
    simp only [hdetail, if_true] at h
    cases upstream with
    | error e => simp at h
    | ok it =>
      simp only at h
      cases hu : (touch { s with user_info := some it } "user_info"
          now).user_info with
      | none => rw [hu] at h; simp at h
      | some u =>
        rw [hu] at h
        simp only [Except.ok.injEq] at h
        subst h
        rfl
  · intro streamId now t upstream s r hrec hfresh h
    unfold getEpgInfo at h
    have hgate : epgIsStale
        (findRefresh s ("epg_" ++ natToStr streamId)) now = false := by
      rw [hrec]
      simp [epgIsStale]
      omega
    simp only [hgate, if_false, Bool.false_eq_true] at h
    cases hmap : (s.epg_listings.filter
        (fun rr => rr.stream_id == streamId)).mapM shapeEpgListing with
    | error e => rw [hmap] at h; simp at h
    | ok shaped =>
      rw [hmap] at h
      simp only [Except.ok.injEq] at h
      subst h
      rfl

/-- Witness for `force_refresh_always_fetches`: a forced live-categories
call on an empty database fetches. -/
theorem force_refresh_always_fetches_witness :
    (⟨[], 0, hours24,
        ⟨[("live_categories", 0)], none, [], [], [], [], [], []⟩, true⟩ :
      FetchResult (List LiveCategoryRow)).fetched = true :=
  force_refresh_always_fetches.1 0 (.ok []) DBState.empty _ rfl

/-- A database with a just-touched freshness record for
`live_channels_7` but no stored channel rows at all. -/
def liveChannelsFreshEmpty : DBState :=
  { DBState.empty with refresh_data := [("live_channels_7", 0)] }

/-- An upstream live-channel item, available but never fetched in the
counterexample. -/
def sampleChannelItem : LiveChannelItem :=
  { num := 1, name := "CH", stream_type := "live", stream_id := 42
    stream_icon := "i", epg_channel_id := none, added := "0"
    custom_sid := none, tv_archive := none, direct_source := none
    tv_archive_duration := none }

/-- C5 counterexample: for the list-shaped live-channels resource, a
fresh freshness record with **no stored rows in scope** does not trigger
a fetch — the call returns the empty list without contacting upstream,
contradicting the claim that absent rows force a refresh for list
resources. -/
theorem empty_list_no_refetch_counterexample :
    getLiveChannels sampleConn 7 false 0 (.ok [sampleChannelItem])
        liveChannelsFreshEmpty =
      .ok ⟨[], liveChannelsFreshEmpty, false⟩ := by
  rfl

/-- C5 amended: for the singleton/detail resources (account profile,
film detail) the absence of the local row forces an upstream fetch even
when the freshness record is fresh; but for the list-shaped resources
the absence of rows in scope does **not** trigger a fetch — with a fresh
record the call simply returns the empty list. -/
theorem missing_detail_forces_refresh :
    (∀ (conn : ConnectionInfo) (vodId now t : Nat)
        (upstream : Except Unit FilmDetailItem) (s : DBState) r,
        findRefresh s ("film_details_" ++ natToStr vodId) = some t →
        s.film_details.find? (fun rr => rr.stream_id == vodId) = none →
        getFilmDetails conn vodId false now upstream s = .ok r →
          r.fetched = true) ∧
    (∀ (now t : Nat) (upstream : Except Unit UserInfoRow) (s : DBState) r,
        findRefresh s "user_info" = some t →
        s.user_info = none →
        getUserInfo false now upstream s = .ok r → r.fetched = true) ∧
    (∀ (conn : ConnectionInfo) (categoryId now t : Nat)
        (upstream : Except Unit (List LiveChannelItem)) (s : DBState),
        findRefresh s ("live_channels_" ++ natToStr categoryId) = some t →
        now - t ≤ hours24 →
        s.live_channels.filter
          (fun rr => rr.category_id == natToStr categoryId) = [] →
        getLiveChannels conn categoryId false now upstream s =
          .ok ⟨[], s, false⟩) := by
  refine ⟨?_, ?_, ?_⟩
  · intro conn vodId now t upstream s r hrec hrow h
    unfold getFilmDetails at h
    have hgate : detailIsStale false
        (findRefresh s ("film_details_" ++ natToStr vodId))
        (s.film_details.find? (fun rr => rr.stream_id == vodId)) now =
          true := by
      rw [hrec, hrow]
      simp [detailIsStale]
    simp only [hgate, if_true] at h
    cases upstream with
    | error e => simp at h
    | ok it =>
      simp only at h
      cases hfind : (touch
          { s with film_details :=
              upsertFilmDetail s.film_details vodId (mapFilmDetail vodId it) }
          ("film_details_" ++ natToStr vodId) now).film_details.find?
          (fun rr => rr.stream_id == vodId) with
      | none =>
        rw [hfind] at h
        simp at h
      | some row =>
        rw [hfind] at h
        simp only [Except.ok.injEq] at h
        subst h
        rfl
  · intro now t upstream s r hrec hrow h
    unfold getUserInfo at h
    have hgate : detailIsStale false (findRefresh s "user_info")
        s.user_info now = true := by
      rw [hrec, hrow]
      simp [detailIsStale]
    simp only [hgate, if_true] at h
    cases upstream with
    | error e => simp at h
    | ok it =>
      simp only at h
      cases hu : (touch { s with user_info := some it } "user_info"
          now).user_info with
      | none =>
        rw [hu] at h
        simp at h
      | some u =>
        rw [hu] at h
        simp only [Except.ok.injEq] at h
        subst h
        rfl
  · intro conn categoryId now t upstream s hrec hfresh hrows
    unfold getLiveChannels
    have hgate : isStale false
        (findRefresh s ("live_channels_" ++ natToStr categoryId)) now =
          false := by
      rw [hrec]
      simp [isStale]
      omega
    simp only [hgate, Bool.false_eq_true, if_false, hrows, List.map_nil]

/-- A database with a fresh `film_details_3` record but no stored film
detail row. -/
def filmDetailFreshNoRow : DBState :=
  { DBState.empty with refresh_data := [("film_details_3", 0)] }

/-- An upstream VOD-info payload with every optional field absent. -/
def emptyFilmDetailItem : FilmDetailItem :=
  ⟨none, none, none, none, none, none, none, none, none, none, none,
    none, none, none, none, none, none, none, none, none, none, none,
    none, none, none, none, none, none⟩

/-- Witness for `missing_detail_forces_refresh`: a film-detail database
with a fresh `film_details_3` record but no stored detail row refetches
(conjunct one applied at that concrete state). -/
theorem missing_detail_forces_refresh_witness :
    ∃ r : FetchResult ShapedFilmDetail,
      getFilmDetails sampleConn 3 false 0 (.ok emptyFilmDetailItem)
          filmDetailFreshNoRow =
        .ok r ∧ r.fetched = true := by
  refine ⟨_, rfl, missing_detail_forces_refresh.1 sampleConn 3 0 0
    (.ok emptyFilmDetailItem) filmDetailFreshNoRow _ rfl rfl rfl⟩

/-- Distinct ids render to distinct key strings. -/
theorem natToStr_ne {x y : Nat} (hxy : x ≠ y) : natToStr x ≠ natToStr y :=
  fun h => hxy (natToStr_injective h)

/-- The frame property of a scoped replace: deleting the rows matching
`p` and appending rows that all fail `q` leaves the `q`-filtered rows
unchanged, provided `q`-rows never match `p`. -/
theorem filter_scoped_replace {α : Type} (p q : α → Bool)
    (l new : List α) (hq : ∀ a, q a = true → p a = false)
    (hnew : ∀ a ∈ new, q a = false) :
    (l.filter (fun a => !(p a)) ++ new).filter q = l.filter q := by
  rw [List.filter_append]
  have h1 : new.filter q = [] := by
    rw [List.filter_eq_nil_iff]
    intro a ha
    simp [hnew a ha]
  have h2 : (l.filter (fun a => !(p a))).filter q = l.filter q := by
    rw [List.filter_filter]
    apply List.filter_congr
    intro a _
    by_cases hqa : q a = true
    · simp [hqa, hq a hqa]
    · simp only [Bool.not_eq_true] at hqa
      simp [hqa]
  rw [h1, h2, List.append_nil]

/-- Every row produced by the per-category series mapper carries the
requested category id. -/
theorem mapSeriesPerCategory_category_id (cid : Nat) (it : SeriesItem)
    (row : SeriesRow) (h : mapSeriesPerCategory cid it = .ok row) :
    row.category_id = natToStr cid := by
  unfold mapSeriesPerCategory at h
  split at h
  · simp only [Except.ok.injEq] at h
    subst h
    rfl
  · simp at h

/-- Lifted to `mapM`: every stored row of a successful per-category
series mapping carries the requested category id. -/
theorem mapM_mapSeriesPerCategory_category_id (cid : Nat) :
    ∀ (l : List SeriesItem) (rows : List SeriesRow),
      l.mapM (mapSeriesPerCategory cid) = .ok rows →
      ∀ r ∈ rows, r.category_id = natToStr cid := by
  intro l
  induction l with
  | nil =>
    intro rows h r hr
    simp only [List.mapM_nil] at h
    cases h
    simp at hr
  | cons a tl ih =>
    intro rows h r hr
    rw [List.mapM_cons] at h
    cases ha : mapSeriesPerCategory cid a with
    | error e => rw [ha] at h; simp [Bind.bind, Except.bind] at h
    | ok b =>
      rw [ha] at h
      cases htl : tl.mapM (mapSeriesPerCategory cid) with
      | error e =>
        rw [htl] at h
        simp [Bind.bind, Except.bind] at h
      | ok bs =>
        rw [htl] at h
        simp only [Bind.bind, Except.bind, pure, Except.pure,
          Except.ok.injEq] at h
        subst h
        rcases List.mem_cons.mp hr with rfl | hmem
        · exact mapSeriesPerCategory_category_id cid a r ha
        · exact ih bs htl r hmem

/-- C3: refreshing the per-category list for category `x` (live
channels, film streams, series) deletes and reinserts only rows with
category id `x`; the stored rows of any other category `y` are unchanged
as a list — hence in both count and content. -/
theorem scoped_replace_frame (x y : Nat) (hxy : x ≠ y) :
    (∀ (conn : ConnectionInfo) (force : Bool) (now : Nat)
        (upstream : Except Unit (List LiveChannelItem)) (s : DBState)
        (r : ListResult (List ShapedLiveChannel)),
        getLiveChannels conn x force now upstream s = .ok r →
          r.db.live_channels.filter
              (fun c => c.category_id == natToStr y) =
            s.live_channels.filter
              (fun c => c.category_id == natToStr y)) ∧
    (∀ (conn : ConnectionInfo) (force : Bool) (now : Nat)
        (upstream : Except Unit (List FilmStreamItem)) (s : DBState)
        (r : ListResult (List ShapedFilmStream)),
        getFilmStreams conn x force now upstream s = .ok r →
          r.db.film_streams.filter
              (fun c => c.category_id == natToStr y) =
            s.film_streams.filter
              (fun c => c.category_id == natToStr y)) ∧
    (∀ (force : Bool) (now : Nat)
        (upstream : Except Unit (List SeriesItem)) (s : DBState)
        (r : ListResult (List ShapedSeries)),
        getSeriesFromDb x force now upstream s = .ok r →
          r.db.series.filter (fun c => c.category_id == natToStr y) =
            s.series.filter (fun c => c.category_id == natToStr y)) ∧
    (∀ (force : Bool) (now : Nat)
        (upstream : Except Unit (List SeriesItem)) (s : DBState)
        (r : ListResult (List ShapedSeries)),
        getSeriesByCategory x force now upstream s = .ok r →
          r.db.series.filter (fun c => c.category_id == natToStr y) =
            s.series.filter (fun c => c.category_id == natToStr y)) := by
  have hq : ∀ cid : String, (cid == natToStr y) = true →
      (cid == natToStr x) = false := by
    intro cid hcy
    rw [beq_iff_eq] at hcy
    subst hcy
    rw [beq_eq_false_iff_ne]
    exact (natToStr_ne hxy).symm
  have hchan : ∀ (force : Bool) (now : Nat)
      (upstream : Except Unit (List LiveChannelItem)) (s : DBState)
      (conn : ConnectionInfo) (r : ListResult (List ShapedLiveChannel)),
      getLiveChannels conn x force now upstream s = .ok r →
        r.db.live_channels.filter (fun c => c.category_id == natToStr y) =
          s.live_channels.filter (fun c => c.category_id == natToStr y) := by
    intro force now upstream s conn r h
    unfold getLiveChannels at h
    by_cases hs : isStale force
        (findRefresh s ("live_channels_" ++ natToStr x)) now
    · simp only [hs, if_true] at h
      cases upstream with
      | error e => simp at h
      | ok data =>
        simp only [Except.ok.injEq] at h
        subst h
        simp only
        rw [(touch_rows _ _ _).2.2.1]
        exact filter_scoped_replace _ _ _ _
          (fun a ha => hq a.category_id ha) (by
          intro a ha
          rcases List.mem_map.mp ha with ⟨c, _, rfl⟩
          rw [beq_eq_false_iff_ne]
          exact natToStr_ne hxy)
    · simp only [hs, Bool.false_eq_true, if_false, Except.ok.injEq] at h
      subst h
      rfl
  have hfilm : ∀ (force : Bool) (now : Nat)
      (upstream : Except Unit (List FilmStreamItem)) (s : DBState)
      (conn : ConnectionInfo) (r : ListResult (List ShapedFilmStream)),
      getFilmStreams conn x force now upstream s = .ok r →
        r.db.film_streams.filter (fun c => c.category_id == natToStr y) =
          s.film_streams.filter (fun c => c.category_id == natToStr y) := by
    intro force now upstream s conn r h
    unfold getFilmStreams at h
    by_cases hs : isStale force
        (findRefresh s ("film_streams_" ++ natToStr x)) now
    · simp only [hs, if_true] at h
      cases upstream with
      | error e => simp at h
      | ok data =>
        simp only [Except.ok.injEq] at h
        subst h
        simp only
        rw [(touch_rows _ _ _).2.2.2.2.1]
        exact filter_scoped_replace _ _ _ _
          (fun a ha => hq a.category_id ha) (by
          intro a ha
          rcases List.mem_map.mp ha with ⟨c, _, rfl⟩
          rw [beq_eq_false_iff_ne]
          exact natToStr_ne hxy)
    · simp only [hs, Bool.false_eq_true, if_false, Except.ok.injEq] at h
      subst h
      rfl
  have hser : ∀ (force : Bool) (now : Nat)
      (upstream : Except Unit (List SeriesItem)) (s : DBState)
      (r : ListResult (List ShapedSeries)),
      getSeriesFromDb x force now upstream s = .ok r →
        r.db.series.filter (fun c => c.category_id == natToStr y) =
          s.series.filter (fun c => c.category_id == natToStr y) := by
    intro force now upstream s r h
    unfold getSeriesFromDb at h
    by_cases hs : isStale force
        (findRefresh s ("series_" ++ natToStr x)) now
    · simp only [hs, if_true] at h
      cases upstream with
      | error e => simp at h
      | ok data =>
        cases hmap : data.mapM (mapSeriesPerCategory x) with
        | error e =>
          simp only [hmap] at h
          simp at h
        | ok rows =>
          simp only [hmap, Except.ok.injEq] at h
          subst h
          simp only
          rw [(touch_rows _ _ _).2.2.2.1]
          exact filter_scoped_replace _ _ _ _
            (fun a ha => hq a.category_id ha) (by
            intro a ha
            rw [beq_eq_false_iff_ne,
              mapM_mapSeriesPerCategory_category_id x data rows hmap a ha]
            exact natToStr_ne hxy)
    · simp only [hs, Bool.false_eq_true, if_false, Except.ok.injEq] at h
      subst h
      rfl
  refine ⟨fun conn force now upstream s r h =>
      hchan force now upstream s conn r h,
    fun conn force now upstream s r h =>
      hfilm force now upstream s conn r h,
    fun force now upstream s r h => hser force now upstream s r h,
    ?_⟩
  intro force now upstream s r h
  unfold getSeriesByCategory at h
  by_cases hsc : (!(s.series.filter
      (fun rr => rr.category_id == natToStr x)).isEmpty && !force) = true
  · simp only [hsc, if_true, Except.ok.injEq] at h
    subst h
    rfl
  · simp only [hsc, Bool.false_eq_true, if_false] at h
    exact hser force now upstream s r h

/-- Witness for `scoped_replace_frame`: refreshing the (stale) empty
live-channel list of category 1 leaves the stored channels of category 2
untouched. -/
theorem scoped_replace_frame_witness :
    ∃ r : ListResult (List ShapedLiveChannel),
      getLiveChannels sampleConn 1 false 0 (.ok [sampleChannelItem])
          DBState.empty = .ok r ∧
      r.db.live_channels.filter (fun c => c.category_id == natToStr 2) =
        DBState.empty.live_channels.filter
          (fun c => c.category_id == natToStr 2) := by
  refine ⟨_, rfl, (scoped_replace_frame 1 2 (by decide)).1 sampleConn
    false 0 (.ok [sampleChannelItem]) DBState.empty _ rfl⟩

/-- C6: after any successful `fetchOrRead` of live categories with
`forceRefresh = false`, an immediate second call (same clock) performs no
upstream fetch — whatever the network would have returned — and returns
the same rows and timestamps unchanged, on an unchanged database: the
first call's touch is observed by the second call. -/
theorem fetch_or_read_idempotent (now : Nat)
    (upstream : Except Unit (List LiveCategoryItem)) (s : DBState)
    (r : FetchResult (List LiveCategoryRow))
    (h : getLiveCategories false now upstream s = .ok r) :
    ∀ upstream2 : Except Unit (List LiveCategoryItem),
      getLiveCategories false now upstream2 r.db =
        .ok ⟨r.data, r.fetchedAt, r.expiresAt, r.db, false⟩ := by
  intro upstream2
  unfold getLiveCategories at h ⊢
  by_cases hs : isStale false (findRefresh s "live_categories") now
  · simp only [hs, if_true] at h
    cases upstream with
    | error e => simp at h
    | ok data =>
      simp only [Except.ok.injEq] at h
      subst h
      simp only
      have hrec := findRefresh_touch_self
        { s with live_categories := data.map mapLiveCategory }
        "live_categories" now
      have hs2 : isStale false (some now) now = false := by
        simp [isStale]
      simp only [hrec]
      simp only [hs2, Bool.false_eq_true, if_false]
      simp only [hrec, Option.getD_some]
  · simp only [hs, Bool.false_eq_true, if_false, Except.ok.injEq] at h
    subst h
    simp only [hs, Bool.false_eq_true, if_false]

/-- Witness for `fetch_or_read_idempotent`: on the empty database the
first call fetches and stores one category; the immediate second call —
here with the network even failing — skips the fetch and returns the
same data. -/
theorem fetch_or_read_idempotent_witness :
    ∃ r : FetchResult (List LiveCategoryRow),
      getLiveCategories false 0 (.ok [⟨"1", "News", 0⟩]) DBState.empty =
        .ok r ∧
      getLiveCategories false 0 (.error ()) r.db =
        .ok ⟨r.data, r.fetchedAt, r.expiresAt, r.db, false⟩ := by
  refine ⟨_, rfl, fetch_or_read_idempotent 0 (.ok [⟨"1", "News", 0⟩])
    DBState.empty _ rfl (.error ())⟩

/-- C2: the live-categories refresh unit (delete of the old rows, insert
of the new rows, freshness touch) is atomic: afterwards the stored rows
are either the complete old set or the complete new set; on a fetch or
store failure the whole unit is rolled back, leaving the database
exactly as it was; and the previously-cached rows remain valid — a
subsequent non-forced call within the freshness window returns them
without fetching. -/
theorem refresh_unit_atomic (now : Nat)
    (upstream : Except Unit (List LiveCategoryItem)) (writeOk : Bool)
    (s : DBState) :
    ((observedAfterRefresh now upstream writeOk s).live_categories =
        s.live_categories ∨
      ∃ data, upstream = .ok data ∧
        (observedAfterRefresh now upstream writeOk s).live_categories =
          data.map mapLiveCategory) ∧
    (∀ e, refreshTxnLiveCategories now upstream writeOk s = .error e →
      observedAfterRefresh now upstream writeOk s = s) ∧
    (∀ (t now2 : Nat) (upstream2 : Except Unit (List LiveCategoryItem)),
      findRefresh s "live_categories" = some t → now2 - t ≤ hours24 →
      getLiveCategories false now2 upstream2 s =
        .ok ⟨s.live_categories, t, t + hours24, s, false⟩) := by
  refine ⟨?_, ?_, ?_⟩
  · unfold observedAfterRefresh refreshTxnLiveCategories
    cases upstream with
    | error e => left; rfl
    | ok data =>
      by_cases hw : writeOk
      · right
        refine ⟨data, rfl, ?_⟩
        simp only [hw, if_true]
        exact (touch_rows _ _ _).2.1
      · left
        simp [hw]
  · intro e he
    unfold observedAfterRefresh
    rw [he]
  · intro t now2 upstream2 hrec hfresh
    unfold getLiveCategories
    have hs2 : isStale false (some t) now2 = false := by
      simp [isStale]
      omega
    simp only [hrec]
    simp only [hs2, Bool.false_eq_true, if_false]
    simp only [hrec, Option.getD_some]

/-- A database already holding one cached live category with a fresh
record. -/
def cachedLiveCatState : DBState :=
  { DBState.empty with
      live_categories := [⟨"1", "News", 0⟩]
      refresh_data := [("live_categories", 0)] }

/-- Witness for `refresh_unit_atomic`: a refresh whose store write fails
leaves the cached category table exactly as before, and a subsequent
non-forced call (even with the network down) returns the cached row. -/
theorem refresh_unit_atomic_witness :
    observedAfterRefresh 0 (.ok [⟨"2", "Sport", 0⟩]) false
        cachedLiveCatState = cachedLiveCatState ∧
    getLiveCategories false 0 (.error ()) cachedLiveCatState =
      .ok ⟨cachedLiveCatState.live_categories, 0, hours24,
        cachedLiveCatState, false⟩ := by
  constructor
  · exact (refresh_unit_atomic 0 (.ok [⟨"2", "Sport", 0⟩]) false
      cachedLiveCatState).2.1 .storeError rfl
  · have := (refresh_unit_atomic 0 (.ok [⟨"2", "Sport", 0⟩]) false
      cachedLiveCatState).2.2 0 0 (.error ()) rfl (by decide)
    simpa using this

/-- An upstream series object missing only the optional `plot` field. -/
def seriesItemNoPlot : SeriesItem :=
  { series_id := some 1, name := some "S", cover := some "c", plot := none
    cast := some "", director := some "", genre := some ""
    releaseDate := some "", last_modified := some "", rating := some ""
    rating_5based := some 0, backdrop_path := some []
    youtube_trailer := some "", episode_run_time := some ""
    category_id := some "9" }

/-- C9 counterexample: on a payload with the optional `plot` field
absent, the per-category series mapper raises (`KeyError`) while the
all-series mapper defaults it to `""` — the defaulting is neither total
nor uniform across the two code paths that store series rows. -/
theorem series_defaulting_counterexample :
    mapSeriesPerCategory 9 seriesItemNoPlot = .error () ∧
    mapSeriesAll seriesItemNoPlot =
      .ok { series_id := 1, name := "S", cover := "c", plot := ""
            cast := "", director := "", genre := "", release_date := ""
            last_modified := "", rating := "", rating_5based := 0
            backdrop_path := [], youtube_trailer := ""
            episode_run_time := "", category_id := "9" } :=
  ⟨rfl, rfl⟩

/-- C9 amended: only the all-series path defaults optional fields — for
any payload carrying the four direct-indexed fields it never raises and
fills every absent optional field with `""` / `0` / `[]`; the
per-category series mapper defaults nothing: it succeeds exactly when
every one of its fourteen directly-indexed fields is present, and raises
otherwise. -/
theorem series_defaulting_not_uniform :
    (∀ (it : SeriesItem) (sid : Nat) (cat nm cov : String),
        it.series_id = some sid → it.category_id = some cat →
        it.name = some nm → it.cover = some cov →
        mapSeriesAll it = .ok
          { series_id := sid, name := nm, cover := cov
            plot := it.plot.getD "", cast := it.cast.getD ""
            director := it.director.getD "", genre := it.genre.getD ""
            release_date := it.releaseDate.getD ""
            last_modified := it.last_modified.getD ""
            rating := it.rating.getD ""
            rating_5based := it.rating_5based.getD 0
            backdrop_path := it.backdrop_path.getD []
            youtube_trailer := it.youtube_trailer.getD ""
            episode_run_time := it.episode_run_time.getD ""
            category_id := cat }) ∧
    (∀ (cid : Nat) (it : SeriesItem),
        (∃ row, mapSeriesPerCategory cid it = .ok row) ↔
          (it.series_id.isSome ∧ it.name.isSome ∧ it.cover.isSome ∧
            it.plot.isSome ∧ it.cast.isSome ∧ it.director.isSome ∧
            it.genre.isSome ∧ it.releaseDate.isSome ∧
            it.last_modified.isSome ∧ it.rating.isSome ∧
            it.rating_5based.isSome ∧ it.backdrop_path.isSome ∧
            it.youtube_trailer.isSome ∧ it.episode_run_time.isSome)) := by
  constructor
  · intro it sid cat nm cov h1 h2 h3 h4
    simp only [mapSeriesAll, h1, h2, h3, h4]
  · intro cid it
    constructor
    · rintro ⟨row, h⟩
      unfold mapSeriesPerCategory at h
      split at h
      · simp_all
      · simp at h
    · rintro ⟨h1, h2, h3, h4, h5, h6, h7, h8, h9, h10, h11, h12, h13, h14⟩
      rw [Option.isSome_iff_exists] at h1 h2 h3 h4 h5 h6 h7
      rw [Option.isSome_iff_exists] at h8 h9 h10 h11 h12 h13 h14
      obtain ⟨v1, e1⟩ := h1
      obtain ⟨v2, e2⟩ := h2
      obtain ⟨v3, e3⟩ := h3
      obtain ⟨v4, e4⟩ := h4
      obtain ⟨v5, e5⟩ := h5
      obtain ⟨v6, e6⟩ := h6
      obtain ⟨v7, e7⟩ := h7
      obtain ⟨v8, e8⟩ := h8
      obtain ⟨v9, e9⟩ := h9
      obtain ⟨v10, e10⟩ := h10
      obtain ⟨v11, e11⟩ := h11
      obtain ⟨v12, e12⟩ := h12
      obtain ⟨v13, e13⟩ := h13
      obtain ⟨v14, e14⟩ := h14
      exact ⟨{ series_id := v1, name := v2, cover := v3, plot := v4
               cast := v5, director := v6, genre := v7, release_date := v8
               last_modified := v9, rating := v10, rating_5based := v11
               backdrop_path := v12, youtube_trailer := v13
               episode_run_time := v14, category_id := natToStr cid },
        by simp only [mapSeriesPerCategory, e1, e2, e3, e4, e5, e6, e7,
          e8, e9, e10, e11, e12, e13, e14]⟩

/-- An upstream series object with every optional field absent. -/
def seriesItemBare : SeriesItem :=
  ⟨some 2, some "T", some "d", none, none, none, none, none, none, none,
    none, none, none, none, some "4"⟩

/-- Witness for `series_defaulting_not_uniform`: the all-series mapper
on a payload with every optional field absent stores all defaults. -/
theorem series_defaulting_not_uniform_witness :
    mapSeriesAll seriesItemBare =
      .ok { series_id := 2, name := "T", cover := "d", plot := ""
            cast := "", director := "", genre := "", release_date := ""
            last_modified := "", rating := "", rating_5based := 0
            backdrop_path := [], youtube_trailer := ""
            episode_run_time := "", category_id := "4" } :=
  series_defaulting_not_uniform.1 seriesItemBare 2 "4" "T" "d"
    rfl rfl rfl rfl

/-! ### Base64 round-trip -/

theorem b64Index_b64Chr_fin :
    ∀ i : Fin 64, b64Index (b64Chr i.val) = some i.val := by decide

theorem b64Chr_ne_pad_fin : ∀ i : Fin 64, b64Chr i.val ≠ '=' := by decide

theorem b64Index_b64Chr {i : Nat} (h : i < 64) :
    b64Index (b64Chr i) = some i := b64Index_b64Chr_fin ⟨i, h⟩

theorem b64Chr_ne_pad {i : Nat} (h : i < 64) : b64Chr i ≠ '=' :=
  b64Chr_ne_pad_fin ⟨i, h⟩

theorem a2bBase64_step0 (c : Char) (v : Nat) (rest : List Char)
    (pads : Nat) (acc : List Nat) (hne : c ≠ '=')
    (hv : b64Index c = some v) :
    a2bBase64 (c :: rest) [] pads acc = a2bBase64 rest [v] 0 acc := by
  simp only [a2bBase64, if_neg hne, hv]
  rfl

theorem a2bBase64_step1 (c : Char) (v a : Nat) (rest : List Char)
    (pads : Nat) (acc : List Nat) (hne : c ≠ '=')
    (hv : b64Index c = some v) :
    a2bBase64 (c :: rest) [a] pads acc = a2bBase64 rest [a, v] 0 acc := by
  simp only [a2bBase64, if_neg hne, hv]
  rfl

theorem a2bBase64_step2 (c : Char) (v a b : Nat) (rest : List Char)
    (pads : Nat) (acc : List Nat) (hne : c ≠ '=')
    (hv : b64Index c = some v) :
    a2bBase64 (c :: rest) [a, b] pads acc =
      a2bBase64 rest [a, b, v] 0 acc := by
  simp only [a2bBase64, if_neg hne, hv]
  rfl

theorem a2bBase64_step3 (c : Char) (v a b c3 : Nat) (rest : List Char)
    (pads : Nat) (acc : List Nat) (hne : c ≠ '=')
    (hv : b64Index c = some v) :
    a2bBase64 (c :: rest) [a, b, c3] pads acc =
      a2bBase64 rest [] 0 (acc ++ decodeQuad a b c3 v) := by
  simp only [a2bBase64, if_neg hne, hv]

theorem a2bBase64_pad (rest : List Char) (quad : List Nat)
    (pads : Nat) (acc : List Nat) :
    a2bBase64 ('=' :: rest) quad pads acc =
      if 2 ≤ quad.length ∧ 4 ≤ quad.length + (pads + 1) then
        .ok (acc ++ flushQuad quad)
      else a2bBase64 rest quad (pads + 1) acc := by
  simp only [a2bBase64, if_true]

/-- Decoding an encoded byte stream recovers it exactly (the encoder
emits full padding, so the lenient decoder accepts it). -/
theorem a2bBase64_b2a :
    ∀ (bs : List Nat), (∀ b ∈ bs, b < 256) →
      ∀ acc : List Nat, a2bBase64 (b2a bs) [] 0 acc = .ok (acc ++ bs)
  | [], _, acc => by simp [b2a, a2bBase64]
  | [b1], h, acc => by
    have hb1 : b1 < 256 := h b1 (by simp)
    rw [show b2a [b1] =
        [b64Chr (b1 / 4), b64Chr ((b1 % 4) * 16), '=', '='] from rfl]
    rw [a2bBase64_step0 _ (b1 / 4) _ _ _ (b64Chr_ne_pad (by omega))
        (b64Index_b64Chr (by omega)),
      a2bBase64_step1 _ ((b1 % 4) * 16) _ _ _ _ (b64Chr_ne_pad (by omega))
        (b64Index_b64Chr (by omega)),
      a2bBase64_pad, a2bBase64_pad]
    simp only [List.length_cons, List.length_nil]
    rw [if_neg (by omega), if_pos (by omega)]
    have : flushQuad [b1 / 4, b1 % 4 * 16] = [b1] := by
      simp only [flushQuad]
      congr 1
      omega
    rw [this]
  | [b1, b2], h, acc => by
    have hb1 : b1 < 256 := h b1 (by simp)
    have hb2 : b2 < 256 := h b2 (by simp)
    rw [show b2a [b1, b2] =
        [b64Chr (b1 / 4), b64Chr ((b1 % 4) * 16 + b2 / 16),
          b64Chr ((b2 % 16) * 4), '='] from rfl]
    rw [a2bBase64_step0 _ (b1 / 4) _ _ _ (b64Chr_ne_pad (by omega))
        (b64Index_b64Chr (by omega)),
      a2bBase64_step1 _ ((b1 % 4) * 16 + b2 / 16) _ _ _ _
        (b64Chr_ne_pad (by omega)) (b64Index_b64Chr (by omega)),
      a2bBase64_step2 _ ((b2 % 16) * 4) _ _ _ _ _
        (b64Chr_ne_pad (by omega)) (b64Index_b64Chr (by omega)),
      a2bBase64_pad]
    simp only [List.length_cons, List.length_nil]
    rw [if_pos (by omega)]
    have : flushQuad [b1 / 4, b1 % 4 * 16 + b2 / 16, b2 % 16 * 4] =
        [b1, b2] := by
      simp only [flushQuad]
      congr 1
      · omega
      · congr 1
        omega
    rw [this]
  | b1 :: b2 :: b3 :: rest, h, acc => by
    have hb1 : b1 < 256 := h b1 (by simp)
    have hb2 : b2 < 256 := h b2 (by simp)
    have hb3 : b3 < 256 := h b3 (by simp)
    have hrest : ∀ b ∈ rest, b < 256 := fun b hb => h b (by simp [hb])
    rw [show b2a (b1 :: b2 :: b3 :: rest) =
        b64Chr (b1 / 4) :: b64Chr ((b1 % 4) * 16 + b2 / 16) ::
          b64Chr ((b2 % 16) * 4 + b3 / 64) :: b64Chr (b3 % 64) ::
          b2a rest from rfl]
    rw [a2bBase64_step0 _ (b1 / 4) _ _ _ (b64Chr_ne_pad (by omega))
        (b64Index_b64Chr (by omega)),
      a2bBase64_step1 _ ((b1 % 4) * 16 + b2 / 16) _ _ _ _
        (b64Chr_ne_pad (by omega)) (b64Index_b64Chr (by omega)),
      a2bBase64_step2 _ ((b2 % 16) * 4 + b3 / 64) _ _ _ _ _
        (b64Chr_ne_pad (by omega)) (b64Index_b64Chr (by omega)),
      a2bBase64_step3 _ (b3 % 64) _ _ _ _ _ _
        (b64Chr_ne_pad (by omega)) (b64Index_b64Chr (by omega))]
    have hquad : decodeQuad (b1 / 4) (b1 % 4 * 16 + b2 / 16)
        (b2 % 16 * 4 + b3 / 64) (b3 % 64) = [b1, b2, b3] := by
      simp only [decodeQuad]
      congr 1
      · omega
      · congr 1
        · omega
        · congr 1
          omega
    rw [hquad, a2bBase64_b2a rest hrest (acc ++ [b1, b2, b3])]
    simp

/-! ### UTF-8 round-trip -/

/-- A `Char` is a unicode scalar value: below `0xD800`, or strictly
between the surrogate range and `0x110000`. -/
theorem char_valid_nat (c : Char) :
    c.toNat < 0xD800 ∨ (0xDFFF < c.toNat ∧ c.toNat < 0x110000) := by
  rcases c.valid with h | ⟨h1, h2⟩
  · exact Or.inl h
  · exact Or.inr ⟨h1, h2⟩

theorem utf8Decode_one (b : Nat) (rest : List Nat) (h : b < 0x80) :
    utf8DecodeReplace (b :: rest) =
      Char.ofNat b :: utf8DecodeReplace rest := by
  conv_lhs => unfold utf8DecodeReplace
  rw [if_pos h]

theorem utf8Decode_two (b b2 : Nat) (rest : List Nat)
    (hb : 0xC2 ≤ b ∧ b ≤ 0xDF) (hb2 : 0x80 ≤ b2 ∧ b2 ≤ 0xBF) :
    utf8DecodeReplace (b :: b2 :: rest) =
      Char.ofNat ((b - 0xC0) * 64 + (b2 - 0x80)) ::
        utf8DecodeReplace rest := by
  conv_lhs => unfold utf8DecodeReplace
  rw [if_neg (by omega), if_pos hb]
  simp only []
  rw [if_pos hb2]

theorem utf8Decode_three (b b2 b3 : Nat) (rest : List Nat)
    (hb : 0xE0 ≤ b ∧ b ≤ 0xEF)
    (hguard : if b = 0xE0 then 0xA0 ≤ b2 ∧ b2 ≤ 0xBF
      else if b = 0xED then 0x80 ≤ b2 ∧ b2 ≤ 0x9F
      else 0x80 ≤ b2 ∧ b2 ≤ 0xBF)
    (hb3 : 0x80 ≤ b3 ∧ b3 ≤ 0xBF) :
    utf8DecodeReplace (b :: b2 :: b3 :: rest) =
      Char.ofNat ((b - 0xE0) * 4096 + (b2 - 0x80) * 64 + (b3 - 0x80)) ::
        utf8DecodeReplace rest := by
  conv_lhs => unfold utf8DecodeReplace
  rw [if_neg (by omega), if_neg (by omega), if_pos hb]
  simp only []
  rw [if_pos hguard, if_pos hb3]

theorem utf8Decode_four (b b2 b3 b4 : Nat) (rest : List Nat)
    (hb : 0xF0 ≤ b ∧ b ≤ 0xF4)
    (hguard : if b = 0xF0 then 0x90 ≤ b2 ∧ b2 ≤ 0xBF
      else if b = 0xF4 then 0x80 ≤ b2 ∧ b2 ≤ 0x8F
      else 0x80 ≤ b2 ∧ b2 ≤ 0xBF)
    (hb3 : 0x80 ≤ b3 ∧ b3 ≤ 0xBF) (hb4 : 0x80 ≤ b4 ∧ b4 ≤ 0xBF) :
    utf8DecodeReplace (b :: b2 :: b3 :: b4 :: rest) =
      Char.ofNat ((b - 0xF0) * 262144 + (b2 - 0x80) * 4096 +
          (b3 - 0x80) * 64 + (b4 - 0x80)) ::
        utf8DecodeReplace rest := by
  conv_lhs => unfold utf8DecodeReplace
  rw [if_neg (by omega), if_neg (by omega), if_neg (by omega),
    if_pos hb]
  simp only []
  rw [if_pos hguard, if_pos hb3, if_pos hb4]

/-- Decoding the UTF-8 encoding of one character in front of any byte
tail yields that character followed by the decoded tail. -/
theorem utf8DecodeReplace_encodeChar (c : Char) (rest : List Nat) :
    utf8DecodeReplace (utf8EncodeChar c ++ rest) =
      c :: utf8DecodeReplace rest := by
  have hval := char_valid_nat c
  by_cases h1 : c.toNat < 0x80
  · rw [show utf8EncodeChar c = [c.toNat] from by
      simp only [utf8EncodeChar]; rw [if_pos h1]]
    rw [List.cons_append, List.nil_append, utf8Decode_one _ _ h1,
      Char.ofNat_toNat]
  · by_cases h2 : c.toNat < 0x800
    · rw [show utf8EncodeChar c =
          [0xC0 + c.toNat / 64, 0x80 + c.toNat % 64] from by
        simp only [utf8EncodeChar]; rw [if_neg h1, if_pos h2]]
      simp only [List.cons_append, List.nil_append]
      rw [utf8Decode_two (0xC0 + c.toNat / 64) (0x80 + c.toNat % 64)
        rest (by omega) (by omega)]
      congr 1
      have harg : (0xC0 + c.toNat / 64 - 0xC0) * 64 +
          (0x80 + c.toNat % 64 - 0x80) = c.toNat := by omega
      rw [harg, Char.ofNat_toNat]
    · by_cases h3 : c.toNat < 0x10000
      · rw [show utf8EncodeChar c =
            [0xE0 + c.toNat / 4096, 0x80 + (c.toNat / 64) % 64,
              0x80 + c.toNat % 64] from by
          simp only [utf8EncodeChar]; rw [if_neg h1, if_neg h2, if_pos h3]]
        simp only [List.cons_append, List.nil_append]
        rw [utf8Decode_three (0xE0 + c.toNat / 4096)
          (0x80 + (c.toNat / 64) % 64) (0x80 + c.toNat % 64) rest
          (by omega) (by split_ifs <;> omega) (by omega)]
        congr 1
        have harg : (0xE0 + c.toNat / 4096 - 0xE0) * 4096 +
            (0x80 + (c.toNat / 64) % 64 - 0x80) * 64 +
            (0x80 + c.toNat % 64 - 0x80) = c.toNat := by omega
        rw [harg, Char.ofNat_toNat]
      · rw [show utf8EncodeChar c =
            [0xF0 + c.toNat / 262144, 0x80 + (c.toNat / 4096) % 64,
              0x80 + (c.toNat / 64) % 64, 0x80 + c.toNat % 64] from by
          simp only [utf8EncodeChar]
          rw [if_neg h1, if_neg h2, if_neg h3]]
        simp only [List.cons_append, List.nil_append]
        rw [utf8Decode_four (0xF0 + c.toNat / 262144)
          (0x80 + (c.toNat / 4096) % 64) (0x80 + (c.toNat / 64) % 64)
          (0x80 + c.toNat % 64) rest (by omega)
          (by split_ifs <;> omega) (by omega) (by omega)]
        congr 1
        have harg : (0xF0 + c.toNat / 262144 - 0xF0) * 262144 +
            (0x80 + (c.toNat / 4096) % 64 - 0x80) * 4096 +
            (0x80 + (c.toNat / 64) % 64 - 0x80) * 64 +
            (0x80 + c.toNat % 64 - 0x80) = c.toNat := by omega
        rw [harg, Char.ofNat_toNat]

/-- Decoding the UTF-8 encoding of a text yields the text back. -/
theorem utf8DecodeReplace_utf8Encode (s : String) :
    utf8DecodeReplace (utf8Encode s) = s.data := by
  unfold utf8Encode
  induction s.data with
  | nil => rfl
  | cons c tl ih =>
    rw [List.map_cons, List.flatten_cons, utf8DecodeReplace_encodeChar,
      ih]

/-- Every byte of a character's UTF-8 encoding is below 256. -/
theorem utf8EncodeChar_lt (c : Char) : ∀ b ∈ utf8EncodeChar c, b < 256 := by
  have hval := char_valid_nat c
  intro b hb
  simp only [utf8EncodeChar] at hb
  split_ifs at hb <;>
    simp only [List.mem_cons, List.not_mem_nil, or_false] at hb <;>
    omega

/-- Every byte of an encoded text is below 256. -/
theorem utf8Encode_lt (s : String) : ∀ b ∈ utf8Encode s, b < 256 := by
  intro b hb
  unfold utf8Encode at hb
  rw [List.mem_flatten] at hb
  obtain ⟨l, hl, hbl⟩ := hb
  rw [List.mem_map] at hl
  obtain ⟨c, _, rfl⟩ := hl
  exact utf8EncodeChar_lt c b hbl

/-- A stored EPG row whose `title` column holds the malformed base64
text `"A"` (a single data character — `binascii` raises on it). -/
def storedEpgBadTitle : EpgListingRow :=
  { epg_id := "e1", title := "A", lang := "en"
    start := "2024-01-01 00:00:00", stop := "2024-01-01 01:00:00"
    description := "QQ==", channel_id := "c", start_timestamp := 0
    stop_timestamp := 0, now_playing := false, has_archive := false
    stream_id := 5 }

/-- C8 counterexample: shaping a stored listing whose title is the
malformed base64 text `"A"` raises (`binascii.Error`, a thrown error),
instead of producing a best-effort replacement string as the claim
asserts. -/
theorem epg_malformed_base64_raises :
    shapeEpgListing storedEpgBadTitle = .error () := rfl

/-- C8 amended: EPG `title`/`description` are persisted exactly as
received and decoded only at shape time; for any stored *well-formed*
base64 title the shaping decodes it back — in particular storing the
base64 of a text's UTF-8 bytes and reading it back yields the original
plain text, and undecodable **bytes** (invalid UTF-8 after a successful
base64 decode, e.g. `0xFF`) become U+FFFD replacement characters; but
malformed **base64** (e.g. a lone data character) makes shaping raise a
`binascii.Error` rather than yield a replacement string. -/
theorem epg_base64_round_trip :
    (∀ (streamId : Nat) (it : EpgItem),
        (mapEpgListing streamId it).title = it.title ∧
        (mapEpgListing streamId it).description = it.description) ∧
    (∀ (l : EpgListingRow) (tB dB : List Nat),
        (∀ b ∈ tB, b < 256) → (∀ b ∈ dB, b < 256) →
        l.title = b64EncodeStr tB → l.description = b64EncodeStr dB →
        shapeEpgListing l = .ok
          { epg_id := l.epg_id
            title := String.mk (utf8DecodeReplace tB)
            lang := l.lang, start := l.start, stop := l.stop
            description := String.mk (utf8DecodeReplace dB)
            channel_id := l.channel_id
            start_timestamp := l.start_timestamp
            stop_timestamp := l.stop_timestamp
            now_playing := l.now_playing
            has_archive := l.has_archive }) ∧
    (∀ (l : EpgListingRow) (t d : String),
        l.title = b64EncodeStr (utf8Encode t) →
        l.description = b64EncodeStr (utf8Encode d) →
        shapeEpgListing l = .ok
          { epg_id := l.epg_id, title := t, lang := l.lang
            start := l.start, stop := l.stop, description := d
            channel_id := l.channel_id
            start_timestamp := l.start_timestamp
            stop_timestamp := l.stop_timestamp
            now_playing := l.now_playing
            has_archive := l.has_archive }) ∧
    utf8DecodeReplace [255] = [replChar] := by
  have hok : ∀ (l : EpgListingRow) (tB dB : List Nat),
      (∀ b ∈ tB, b < 256) → (∀ b ∈ dB, b < 256) →
      l.title = b64EncodeStr tB → l.description = b64EncodeStr dB →
      shapeEpgListing l = .ok
        { epg_id := l.epg_id
          title := String.mk (utf8DecodeReplace tB)
          lang := l.lang, start := l.start, stop := l.stop
          description := String.mk (utf8DecodeReplace dB)
          channel_id := l.channel_id
          start_timestamp := l.start_timestamp
          stop_timestamp := l.stop_timestamp
          now_playing := l.now_playing
          has_archive := l.has_archive } := by
    intro l tB dB htB hdB ht hd
    have h1 : b64DecodePy l.title = .ok tB := by
      rw [ht]
      have := a2bBase64_b2a tB htB []
      simpa [b64DecodePy, b64EncodeStr] using this
    have h2 : b64DecodePy l.description = .ok dB := by
      rw [hd]
      have := a2bBase64_b2a dB hdB []
      simpa [b64DecodePy, b64EncodeStr] using this
    unfold shapeEpgListing
    rw [h1, h2]
    rfl
  refine ⟨fun streamId it => ⟨rfl, rfl⟩, hok, ?_, rfl⟩
  intro l t d ht hd
  have := hok l (utf8Encode t) (utf8Encode d) (utf8Encode_lt t)
    (utf8Encode_lt d) ht hd
  rw [this, utf8DecodeReplace_utf8Encode, utf8DecodeReplace_utf8Encode]

/-- A stored EPG row whose text columns hold the base64 encodings of
`"Hi"` and of the empty text. -/
def storedEpgGoodTitle : EpgListingRow :=
  { epg_id := "e2", title := "SGk=", lang := "en"
    start := "2024-01-01 00:00:00", stop := "2024-01-01 01:00:00"
    description := "", channel_id := "c", start_timestamp := 0
    stop_timestamp := 0, now_playing := false, has_archive := false
    stream_id := 5 }

/-- Witness for `epg_base64_round_trip`: the stored base64 title
`"SGk="` shapes back to the plain text `"Hi"`. -/
theorem epg_base64_round_trip_witness :
    shapeEpgListing storedEpgGoodTitle = .ok
      { epg_id := "e2", title := "Hi", lang := "en"
        start := "2024-01-01 00:00:00", stop := "2024-01-01 01:00:00"
        description := "", channel_id := "c", start_timestamp := 0
        stop_timestamp := 0, now_playing := false, has_archive := false } :=
  epg_base64_round_trip.2.2.1 storedEpgGoodTitle "Hi" "" rfl rfl

end XtreamLoader
